import Mathlib

/-!
Shallow embedding of the yescaptcha SDK core (files `yescaptcha/exceptions.py`,
`yescaptcha/models.py`, `yescaptcha/client.py`) together with theorems checking
the natural-language specification against it.

Modelling conventions:
* Python `raise` of a `YesCaptchaError` subclass is modelled by returning
  `some e` for an error value `e : YesCaptchaErr` carrying the exception class
  as a `kind` tag plus the stored attributes; returning normally is `none`.
* JSON values are modelled by the inductive `JsonValue`; pydantic models are
  Lean structures, `model_dump(exclude_none=True)` and `model_validate` are
  explicit functions on `JsonValue`.
* The float arithmetic of `solve`'s poll loop is modelled over `ℚ`; the `while`
  loop is modelled with an explicit `fuel` bound, with `SolveOutcome.outOfFuel`
  marking exhaustion, and theorems show the fuel never runs out in the
  situations they describe.
-/

namespace Yescaptcha

/-- JSON-compatible values, the payloads exchanged with the service. -/
inductive JsonValue where
  | str (s : String)
  | num (n : Int)
  | bool (b : Bool)
  | nul
  | arr (elems : List JsonValue)
  | obj (entries : List (String × JsonValue))

/-- The exception classes of `yescaptcha/exceptions.py`, as a tag:
`base` is the root class `YesCaptchaError`, the others are its subclasses. -/
inductive ErrKind where
  | base
  | taskTimeout
  | insufficientBalance
  | invalidKey
  | taskUnsolvable
  | ipBlocked
  | noSlotAvailable
  | taskNotSupported
  | invalidTaskId
  | badRequest
  | serviceUnavailable
deriving DecidableEq

/-- A raised `YesCaptchaError`: the class that was raised plus the attributes
stored verbatim by `YesCaptchaError.__init__`. -/
structure YesCaptchaErr where
  kind : ErrKind
  error_id : Int
  error_code : Option String
  error_description : Option String
deriving DecidableEq

/-- `ERROR_CODE_MAP` of `exceptions.py`: API error code to exception class. -/
def ERROR_CODE_MAP : List (String × ErrKind) :=
  [("ERROR_TASK_TIMEOUT", .taskTimeout),
   ("ERROR_ZERO_BALANCE", .insufficientBalance),
   ("ERROR_KEY_DOES_NOT_EXIST", .invalidKey),
   ("ERROR_CAPTCHA_UNSOLVABLE", .taskUnsolvable),
   ("ERROR_IP_BLOCKED_5MIN", .ipBlocked),
   ("ERROR_IP_BANNED", .ipBlocked),
   ("ERROR_NO_SLOT_AVAILABLE", .noSlotAvailable),
   ("ERROR_NO_SLOT_AVAILABLE_BLOCK", .noSlotAvailable),
   ("ERROR_TASK_NOT_SUPPORTED", .taskNotSupported),
   ("ERROR_TASKID_INVALID", .invalidTaskId),
   ("ERROR_NO_SUCH_CAPCHA_ID", .invalidTaskId),
   ("ERROR_BAD_REQUEST", .badRequest),
   ("ERROR_SERVICE_UNAVALIABLE", .serviceUnavailable)]

/-- The keys of `ERROR_CODE_MAP`. -/
def mappedErrorCodes : List String := ERROR_CODE_MAP.map Prod.fst

/-- `raise_for_error` of `exceptions.py`.  `error_id == 0` returns normally
(`none`); otherwise the exception class is `ERROR_CODE_MAP.get(error_code or
"", YesCaptchaError)` and it is raised with the original id, code and
description (`some e`). -/
def raise_for_error (error_id : Int) (error_code error_description : Option String) :
    Option YesCaptchaErr :=
  if error_id = 0 then none
  else
    some { kind := ((ERROR_CODE_MAP.lookup (error_code.getD "")).getD .base)
           error_id := error_id
           error_code := error_code
           error_description := error_description }

/-! ## Task models (`yescaptcha/models.py`)

Each pydantic task model becomes a structure.  The `type` discriminator is a
`String` field; the `Literal[...]` constraint of the source is expressed by the
per-model `allowedTypes` list, enforced by `model_validate` (pydantic enforces
it at construction and validation time). -/

/-- `ImageToTextTask`. -/
structure ImageToTextTask where
  type : String := "ImageToTextTaskMuggle"
  body : String
  project_name : Option String := none
deriving DecidableEq

/-- The `Literal` set of `ImageToTextTask.type`. -/
def ImageToTextTask.allowedTypes : List String :=
  ["ImageToTextTask", "ImageToTextTaskMuggle", "ImageToTextTaskM1"]

/-- `NoCaptchaTaskProxyless`. -/
structure NoCaptchaTaskProxyless where
  type : String := "NoCaptchaTaskProxyless"
  websiteURL : String
  websiteKey : String
  isInvisible : Bool := false
deriving DecidableEq

/-- The `Literal` set of `NoCaptchaTaskProxyless.type`. -/
def NoCaptchaTaskProxyless.allowedTypes : List String :=
  ["NoCaptchaTaskProxyless", "RecaptchaV2TaskProxyless"]

/-- `RecaptchaV2EnterpriseTaskProxyless`. -/
structure RecaptchaV2EnterpriseTaskProxyless where
  type : String := "RecaptchaV2EnterpriseTaskProxyless"
  websiteURL : String
  websiteKey : String
  enterprisePayload : Option (List (String × JsonValue)) := none

/-- The `Literal` set of `RecaptchaV2EnterpriseTaskProxyless.type`. -/
def RecaptchaV2EnterpriseTaskProxyless.allowedTypes : List String :=
  ["RecaptchaV2EnterpriseTaskProxyless"]

/-- `RecaptchaV3TaskProxyless`. -/
structure RecaptchaV3TaskProxyless where
  type : String := "RecaptchaV3TaskProxyless"
  websiteURL : String
  websiteKey : String
  pageAction : String
deriving DecidableEq

/-- The `Literal` set of `RecaptchaV3TaskProxyless.type`. -/
def RecaptchaV3TaskProxyless.allowedTypes : List String :=
  ["RecaptchaV3TaskProxyless", "RecaptchaV3TaskProxylessM1"]

/-- `RecaptchaV3EnterpriseTask`. -/
structure RecaptchaV3EnterpriseTask where
  type : String := "RecaptchaV3EnterpriseTask"
  websiteURL : String
  websiteKey : String
  pageAction : String
  enterprisePayload : Option (List (String × JsonValue)) := none

/-- The `Literal` set of `RecaptchaV3EnterpriseTask.type`. -/
def RecaptchaV3EnterpriseTask.allowedTypes : List String :=
  ["RecaptchaV3EnterpriseTask", "RecaptchaV3EnterpriseTaskProxyless"]

/-- `HCaptchaTaskProxyless`. -/
structure HCaptchaTaskProxyless where
  type : String := "HCaptchaTaskProxyless"
  websiteURL : String
  websiteKey : String
deriving DecidableEq

/-- The `Literal` set of `HCaptchaTaskProxyless.type`. -/
def HCaptchaTaskProxyless.allowedTypes : List String :=
  ["HCaptchaTaskProxyless"]

/-- `HCaptchaClassification`.  Note: `queries` is required
(`Field(...)`) but the source declares no non-emptiness constraint. -/
structure HCaptchaClassification where
  type : String := "HCaptchaClassification"
  queries : List String
  question : Option String := none
  anchors : Option (List String) := none
deriving DecidableEq

/-- The `Literal` set of `HCaptchaClassification.type`. -/
def HCaptchaClassification.allowedTypes : List String :=
  ["HCaptchaClassification"]

/-- `ReCaptchaV2Classification`. -/
structure ReCaptchaV2Classification where
  type : String := "ReCaptchaV2Classification"
  image : String
  question : String
deriving DecidableEq

/-- The `Literal` set of `ReCaptchaV2Classification.type`. -/
def ReCaptchaV2Classification.allowedTypes : List String :=
  ["ReCaptchaV2Classification"]

/-- `FunCaptchaClassification`. -/
structure FunCaptchaClassification where
  type : String := "FunCaptchaClassification"
  images : List String
  question : String
deriving DecidableEq

/-- The `Literal` set of `FunCaptchaClassification.type`. -/
def FunCaptchaClassification.allowedTypes : List String :=
  ["FunCaptchaClassification"]

/-- `TurnstileTaskProxyless`. -/
structure TurnstileTaskProxyless where
  type : String := "TurnstileTaskProxyless"
  websiteURL : String
  websiteKey : String
deriving DecidableEq

/-- The `Literal` set of `TurnstileTaskProxyless.type`. -/
def TurnstileTaskProxyless.allowedTypes : List String :=
  ["TurnstileTaskProxyless", "TurnstileTaskProxylessM1"]

/-- `CloudFlareTask`. -/
structure CloudFlareTask where
  type : String := "CloudFlareTaskS3"
  websiteURL : String
  proxy : String
  userAgent : Option String := none
  waitLoad : Bool := false
  requiredCookies : Option (List String) := none
  blockImage : Bool := false
  postData : Option (List (String × JsonValue)) := none

/-- The `Literal` set of `CloudFlareTask.type`. -/
def CloudFlareTask.allowedTypes : List String :=
  ["CloudFlareTaskS2", "CloudFlareTaskS3"]

/-- The `Task` union of `models.py`, as a sum over its eleven members. -/
inductive Task where
  | imageToText (t : ImageToTextTask)
  | noCaptcha (t : NoCaptchaTaskProxyless)
  | recaptchaV2Enterprise (t : RecaptchaV2EnterpriseTaskProxyless)
  | recaptchaV3 (t : RecaptchaV3TaskProxyless)
  | recaptchaV3Enterprise (t : RecaptchaV3EnterpriseTask)
  | hcaptcha (t : HCaptchaTaskProxyless)
  | hcaptchaClassification (t : HCaptchaClassification)
  | recaptchaV2Classification (t : ReCaptchaV2Classification)
  | funCaptchaClassification (t : FunCaptchaClassification)
  | turnstile (t : TurnstileTaskProxyless)
  | cloudFlare (t : CloudFlareTask)

/-! ## Serialization (`model_dump(exclude_none=True)`)

`create_task` serializes the task with `task.model_dump(exclude_none=True)`:
a flat JSON object listing the fields in declaration order, where a field
whose value is `None` is omitted entirely. -/

/-- Entry for an `Optional[str]` field: omitted when `None`. -/
def optEntryStr (k : String) : Option String → List (String × JsonValue)
  | none => []
  | some s => [(k, .str s)]

/-- Entry for an `Optional[list[str]]` field: omitted when `None`. -/
def optEntryStrList (k : String) : Option (List String) → List (String × JsonValue)
  | none => []
  | some xs => [(k, .arr (xs.map .str))]

/-- Entry for an `Optional[dict[str, Any]]` field: omitted when `None`. -/
def optEntryObj (k : String) :
    Option (List (String × JsonValue)) → List (String × JsonValue)
  | none => []
  | some m => [(k, .obj m)]

/-- `ImageToTextTask.model_dump(exclude_none=True)`. -/
def ImageToTextTask.model_dump (t : ImageToTextTask) : JsonValue :=
  .obj ([("type", .str t.type), ("body", .str t.body)]
    ++ optEntryStr "project_name" t.project_name)

/-- `NoCaptchaTaskProxyless.model_dump(exclude_none=True)`. -/
def NoCaptchaTaskProxyless.model_dump (t : NoCaptchaTaskProxyless) : JsonValue :=
  .obj [("type", .str t.type), ("websiteURL", .str t.websiteURL),
        ("websiteKey", .str t.websiteKey), ("isInvisible", .bool t.isInvisible)]

/-- `RecaptchaV2EnterpriseTaskProxyless.model_dump(exclude_none=True)`. -/
def RecaptchaV2EnterpriseTaskProxyless.model_dump
    (t : RecaptchaV2EnterpriseTaskProxyless) : JsonValue :=
  .obj ([("type", .str t.type), ("websiteURL", .str t.websiteURL),
         ("websiteKey", .str t.websiteKey)]
    ++ optEntryObj "enterprisePayload" t.enterprisePayload)

/-- `RecaptchaV3TaskProxyless.model_dump(exclude_none=True)`. -/
def RecaptchaV3TaskProxyless.model_dump (t : RecaptchaV3TaskProxyless) : JsonValue :=
  .obj [("type", .str t.type), ("websiteURL", .str t.websiteURL),
        ("websiteKey", .str t.websiteKey), ("pageAction", .str t.pageAction)]

/-- `RecaptchaV3EnterpriseTask.model_dump(exclude_none=True)`. -/
def RecaptchaV3EnterpriseTask.model_dump (t : RecaptchaV3EnterpriseTask) : JsonValue :=
  .obj ([("type", .str t.type), ("websiteURL", .str t.websiteURL),
         ("websiteKey", .str t.websiteKey), ("pageAction", .str t.pageAction)]
    ++ optEntryObj "enterprisePayload" t.enterprisePayload)

/-- `HCaptchaTaskProxyless.model_dump(exclude_none=True)`. -/
def HCaptchaTaskProxyless.model_dump (t : HCaptchaTaskProxyless) : JsonValue :=
  .obj [("type", .str t.type), ("websiteURL", .str t.websiteURL),
        ("websiteKey", .str t.websiteKey)]

/-- `HCaptchaClassification.model_dump(exclude_none=True)`. -/
def HCaptchaClassification.model_dump (t : HCaptchaClassification) : JsonValue :=
  .obj ([("type", .str t.type), ("queries", .arr (t.queries.map .str))]
    ++ optEntryStr "question" t.question
    ++ optEntryStrList "anchors" t.anchors)

/-- `ReCaptchaV2Classification.model_dump(exclude_none=True)`. -/
def ReCaptchaV2Classification.model_dump (t : ReCaptchaV2Classification) : JsonValue :=
  .obj [("type", .str t.type), ("image", .str t.image), ("question", .str t.question)]

/-- `FunCaptchaClassification.model_dump(exclude_none=True)`. -/
def FunCaptchaClassification.model_dump (t : FunCaptchaClassification) : JsonValue :=
  .obj [("type", .str t.type), ("images", .arr (t.images.map .str)),
        ("question", .str t.question)]

/-- `TurnstileTaskProxyless.model_dump(exclude_none=True)`. -/
def TurnstileTaskProxyless.model_dump (t : TurnstileTaskProxyless) : JsonValue :=
  .obj [("type", .str t.type), ("websiteURL", .str t.websiteURL),
        ("websiteKey", .str t.websiteKey)]

/-- `CloudFlareTask.model_dump(exclude_none=True)`. -/
def CloudFlareTask.model_dump (t : CloudFlareTask) : JsonValue :=
  .obj ([("type", .str t.type), ("websiteURL", .str t.websiteURL),
         ("proxy", .str t.proxy)]
    ++ optEntryStr "userAgent" t.userAgent
    ++ [("waitLoad", .bool t.waitLoad)]
    ++ optEntryStrList "requiredCookies" t.requiredCookies
    ++ [("blockImage", .bool t.blockImage)]
    ++ optEntryObj "postData" t.postData)

/-- `Task.model_dump(exclude_none=True)`, dispatching on the variant. -/
def Task.model_dump : Task → JsonValue
  | .imageToText t => t.model_dump
  | .noCaptcha t => t.model_dump
  | .recaptchaV2Enterprise t => t.model_dump
  | .recaptchaV3 t => t.model_dump
  | .recaptchaV3Enterprise t => t.model_dump
  | .hcaptcha t => t.model_dump
  | .hcaptchaClassification t => t.model_dump
  | .recaptchaV2Classification t => t.model_dump
  | .funCaptchaClassification t => t.model_dump
  | .turnstile t => t.model_dump
  | .cloudFlare t => t.model_dump

/-! ## Structural validation (pydantic `model_validate`)

Field parsing mirrors pydantic on the shapes the SDK declares: a required
field must be present with the right shape, an `Optional` field may be absent
or `null` (both give `None`), a `Literal` discriminator must be one of its
enumerated strings (its default is used when absent), unknown keys are ignored
(models use pydantic's default `extra` behaviour, except `Solution`). -/

/-- Parse a JSON value as a `str`. -/
def asStr : JsonValue → Option String
  | .str s => some s
  | _ => none

/-- Parse a JSON value as an `int`. -/
def asInt : JsonValue → Option Int
  | .num n => some n
  | _ => none

/-- Required `str` field. -/
def reqStr (o : List (String × JsonValue)) (k : String) : Option String :=
  (o.lookup k).bind asStr

/-- Parse a JSON array's elements as a `list[str]`. -/
def asStrList : List JsonValue → Option (List String)
  | [] => some []
  | j :: tl =>
    match asStr j, asStrList tl with
    | some s, some t => some (s :: t)
    | _, _ => none

/-- Parse a JSON array's elements as a `list[int]`. -/
def asIntList : List JsonValue → Option (List Int)
  | [] => some []
  | j :: tl =>
    match asInt j, asIntList tl with
    | some n, some t => some (n :: t)
    | _, _ => none

/-- Parse a JSON object's entries as a `dict[str, str]`. -/
def asStrPairList : List (String × JsonValue) → Option (List (String × String))
  | [] => some []
  | (k, j) :: tl =>
    match asStr j, asStrPairList tl with
    | some s, some t => some ((k, s) :: t)
    | _, _ => none

/-- Required `list[str]` field. -/
def reqStrList (o : List (String × JsonValue)) (k : String) : Option (List String) :=
  match o.lookup k with
  | some (.arr xs) => asStrList xs
  | _ => none

/-- `Optional[str]` field. -/
def optFieldStr (o : List (String × JsonValue)) (k : String) :
    Option (Option String) :=
  match o.lookup k with
  | none => some none
  | some .nul => some none
  | some (.str s) => some (some s)
  | some _ => none

/-- `Optional[list[str]]` field. -/
def optFieldStrList (o : List (String × JsonValue)) (k : String) :
    Option (Option (List String)) :=
  match o.lookup k with
  | none => some none
  | some .nul => some none
  | some (.arr xs) => (asStrList xs).map some
  | some _ => none

/-- `Optional[list[int]]` field. -/
def optFieldIntList (o : List (String × JsonValue)) (k : String) :
    Option (Option (List Int)) :=
  match o.lookup k with
  | none => some none
  | some .nul => some none
  | some (.arr xs) => (asIntList xs).map some
  | some _ => none

/-- `Optional[dict[str, Any]]` field. -/
def optFieldObj (o : List (String × JsonValue)) (k : String) :
    Option (Option (List (String × JsonValue))) :=
  match o.lookup k with
  | none => some none
  | some .nul => some none
  | some (.obj m) => some (some m)
  | some _ => none

/-- `bool` field with a declared default. -/
def boolFieldD (o : List (String × JsonValue)) (k : String) (d : Bool) :
    Option Bool :=
  match o.lookup k with
  | none => some d
  | some (.bool b) => some b
  | some _ => none

/-- `Literal[...]` discriminator field with its declared default. -/
def typeField (o : List (String × JsonValue)) (allowed : List String)
    (dflt : String) : Option String :=
  match o.lookup "type" with
  | none => some dflt
  | some (.str s) => if s ∈ allowed then some s else none
  | some _ => none

/-- `ImageToTextTask.model_validate`. -/
def ImageToTextTask.model_validate (j : JsonValue) : Option ImageToTextTask :=
  match j with
  | .obj o =>
      (typeField o ImageToTextTask.allowedTypes "ImageToTextTaskMuggle").bind fun ty =>
      (reqStr o "body").bind fun body =>
      (optFieldStr o "project_name").bind fun pn =>
      some ⟨ty, body, pn⟩
  | _ => none

/-- `NoCaptchaTaskProxyless.model_validate`. -/
def NoCaptchaTaskProxyless.model_validate (j : JsonValue) :
    Option NoCaptchaTaskProxyless :=
  match j with
  | .obj o =>
      (typeField o NoCaptchaTaskProxyless.allowedTypes "NoCaptchaTaskProxyless").bind fun ty =>
      (reqStr o "websiteURL").bind fun url =>
      (reqStr o "websiteKey").bind fun key =>
      (boolFieldD o "isInvisible" false).bind fun inv =>
      some ⟨ty, url, key, inv⟩
  | _ => none

/-- `RecaptchaV2EnterpriseTaskProxyless.model_validate`. -/
def RecaptchaV2EnterpriseTaskProxyless.model_validate (j : JsonValue) :
    Option RecaptchaV2EnterpriseTaskProxyless :=
  match j with
  | .obj o =>
      (typeField o RecaptchaV2EnterpriseTaskProxyless.allowedTypes "RecaptchaV2EnterpriseTaskProxyless").bind fun ty =>
      (reqStr o "websiteURL").bind fun url =>
      (reqStr o "websiteKey").bind fun key =>
      (optFieldObj o "enterprisePayload").bind fun ep =>
      some ⟨ty, url, key, ep⟩
  | _ => none

/-- `RecaptchaV3TaskProxyless.model_validate`. -/
def RecaptchaV3TaskProxyless.model_validate (j : JsonValue) :
    Option RecaptchaV3TaskProxyless :=
  match j with
  | .obj o =>
      (typeField o RecaptchaV3TaskProxyless.allowedTypes "RecaptchaV3TaskProxyless").bind fun ty =>
      (reqStr o "websiteURL").bind fun url =>
      (reqStr o "websiteKey").bind fun key =>
      (reqStr o "pageAction").bind fun action =>
      some ⟨ty, url, key, action⟩
  | _ => none

/-- `RecaptchaV3EnterpriseTask.model_validate`. -/
def RecaptchaV3EnterpriseTask.model_validate (j : JsonValue) :
    Option RecaptchaV3EnterpriseTask :=
  match j with
  | .obj o =>
      (typeField o RecaptchaV3EnterpriseTask.allowedTypes "RecaptchaV3EnterpriseTask").bind fun ty =>
      (reqStr o "websiteURL").bind fun url =>
      (reqStr o "websiteKey").bind fun key =>
      (reqStr o "pageAction").bind fun action =>
      (optFieldObj o "enterprisePayload").bind fun ep =>
      some ⟨ty, url, key, action, ep⟩
  | _ => none

/-- `HCaptchaTaskProxyless.model_validate`. -/
def HCaptchaTaskProxyless.model_validate (j : JsonValue) :
    Option HCaptchaTaskProxyless :=
  match j with
  | .obj o =>
      (typeField o HCaptchaTaskProxyless.allowedTypes "HCaptchaTaskProxyless").bind fun ty =>
      (reqStr o "websiteURL").bind fun url =>
      (reqStr o "websiteKey").bind fun key =>
      some ⟨ty, url, key⟩
  | _ => none

/-- `HCaptchaClassification.model_validate`.  `queries` must be present and a
list of strings; the source imposes no lower bound on its length. -/
def HCaptchaClassification.model_validate (j : JsonValue) :
    Option HCaptchaClassification :=
  match j with
  | .obj o =>
      (typeField o HCaptchaClassification.allowedTypes "HCaptchaClassification").bind fun ty =>
      (reqStrList o "queries").bind fun qs =>
      (optFieldStr o "question").bind fun question =>
      (optFieldStrList o "anchors").bind fun anchors =>
      some ⟨ty, qs, question, anchors⟩
  | _ => none

/-- `ReCaptchaV2Classification.model_validate`. -/
def ReCaptchaV2Classification.model_validate (j : JsonValue) :
    Option ReCaptchaV2Classification :=
  match j with
  | .obj o =>
      (typeField o ReCaptchaV2Classification.allowedTypes "ReCaptchaV2Classification").bind fun ty =>
      (reqStr o "image").bind fun img =>
      (reqStr o "question").bind fun question =>
      some ⟨ty, img, question⟩
  | _ => none

/-- `FunCaptchaClassification.model_validate`. -/
def FunCaptchaClassification.model_validate (j : JsonValue) :
    Option FunCaptchaClassification :=
  match j with
  | .obj o =>
      (typeField o FunCaptchaClassification.allowedTypes "FunCaptchaClassification").bind fun ty =>
      (reqStrList o "images").bind fun imgs =>
      (reqStr o "question").bind fun question =>
      some ⟨ty, imgs, question⟩
  | _ => none

/-- `TurnstileTaskProxyless.model_validate`. -/
def TurnstileTaskProxyless.model_validate (j : JsonValue) :
    Option TurnstileTaskProxyless :=
  match j with
  | .obj o =>
      (typeField o TurnstileTaskProxyless.allowedTypes "TurnstileTaskProxyless").bind fun ty =>
      (reqStr o "websiteURL").bind fun url =>
      (reqStr o "websiteKey").bind fun key =>
      some ⟨ty, url, key⟩
  | _ => none

/-- `CloudFlareTask.model_validate`. -/
def CloudFlareTask.model_validate (j : JsonValue) : Option CloudFlareTask :=
  match j with
  | .obj o =>
      (typeField o CloudFlareTask.allowedTypes "CloudFlareTaskS3").bind fun ty =>
      (reqStr o "websiteURL").bind fun url =>
      (reqStr o "proxy").bind fun proxy =>
      (optFieldStr o "userAgent").bind fun ua =>
      (boolFieldD o "waitLoad" false).bind fun wl =>
      (optFieldStrList o "requiredCookies").bind fun rc =>
      (boolFieldD o "blockImage" false).bind fun bi =>
      (optFieldObj o "postData").bind fun pd =>
      some ⟨ty, url, proxy, ua, wl, rc, bi, pd⟩
  | _ => none

/-- Structural validation against the `Task` union: the members are tried in
the order they are listed in `models.py`. -/
def Task.model_validate (j : JsonValue) : Option Task :=
  (ImageToTextTask.model_validate j).map .imageToText <|>
  (NoCaptchaTaskProxyless.model_validate j).map .noCaptcha <|>
  (RecaptchaV2EnterpriseTaskProxyless.model_validate j).map .recaptchaV2Enterprise <|>
  (RecaptchaV3TaskProxyless.model_validate j).map .recaptchaV3 <|>
  (RecaptchaV3EnterpriseTask.model_validate j).map .recaptchaV3Enterprise <|>
  (HCaptchaTaskProxyless.model_validate j).map .hcaptcha <|>
  (HCaptchaClassification.model_validate j).map .hcaptchaClassification <|>
  (ReCaptchaV2Classification.model_validate j).map .recaptchaV2Classification <|>
  (FunCaptchaClassification.model_validate j).map .funCaptchaClassification <|>
  (TurnstileTaskProxyless.model_validate j).map .turnstile <|>
  (CloudFlareTask.model_validate j).map .cloudFlare

/-- The discriminator string of a `Task` value. -/
def Task.typeStr : Task → String
  | .imageToText t => t.type
  | .noCaptcha t => t.type
  | .recaptchaV2Enterprise t => t.type
  | .recaptchaV3 t => t.type
  | .recaptchaV3Enterprise t => t.type
  | .hcaptcha t => t.type
  | .hcaptchaClassification t => t.type
  | .recaptchaV2Classification t => t.type
  | .funCaptchaClassification t => t.type
  | .turnstile t => t.type
  | .cloudFlare t => t.type

/-- The `Literal` set of the variant a `Task` value belongs to. -/
def Task.allowedTypes : Task → List String
  | .imageToText _ => ImageToTextTask.allowedTypes
  | .noCaptcha _ => NoCaptchaTaskProxyless.allowedTypes
  | .recaptchaV2Enterprise _ => RecaptchaV2EnterpriseTaskProxyless.allowedTypes
  | .recaptchaV3 _ => RecaptchaV3TaskProxyless.allowedTypes
  | .recaptchaV3Enterprise _ => RecaptchaV3EnterpriseTask.allowedTypes
  | .hcaptcha _ => HCaptchaTaskProxyless.allowedTypes
  | .hcaptchaClassification _ => HCaptchaClassification.allowedTypes
  | .recaptchaV2Classification _ => ReCaptchaV2Classification.allowedTypes
  | .funCaptchaClassification _ => FunCaptchaClassification.allowedTypes
  | .turnstile _ => TurnstileTaskProxyless.allowedTypes
  | .cloudFlare _ => CloudFlareTask.allowedTypes

/-- A task value as pydantic construction admits it: its discriminator lies in
the variant's `Literal` set (pydantic rejects any other value at construction
time, so every constructed instance satisfies this). -/
def Task.WF (t : Task) : Prop := t.typeStr ∈ t.allowedTypes

instance (t : Task) : Decidable t.WF := by
  unfold Task.WF
  infer_instance

/-- The union of the discriminator sets of all eleven task variants. -/
def allTaskTypes : List String :=
  ImageToTextTask.allowedTypes ++ NoCaptchaTaskProxyless.allowedTypes ++
  RecaptchaV2EnterpriseTaskProxyless.allowedTypes ++
  RecaptchaV3TaskProxyless.allowedTypes ++ RecaptchaV3EnterpriseTask.allowedTypes ++
  HCaptchaTaskProxyless.allowedTypes ++ HCaptchaClassification.allowedTypes ++
  ReCaptchaV2Classification.allowedTypes ++ FunCaptchaClassification.allowedTypes ++
  TurnstileTaskProxyless.allowedTypes ++ CloudFlareTask.allowedTypes

/-- The keys of the fields of a task's variant that are not `Optional` (they
are never `None`, so `model_dump(exclude_none=True)` always emits them). -/
def Task.requiredKeys : Task → List String
  | .imageToText _ => ["type", "body"]
  | .noCaptcha _ => ["type", "websiteURL", "websiteKey", "isInvisible"]
  | .recaptchaV2Enterprise _ => ["type", "websiteURL", "websiteKey"]
  | .recaptchaV3 _ => ["type", "websiteURL", "websiteKey", "pageAction"]
  | .recaptchaV3Enterprise _ => ["type", "websiteURL", "websiteKey", "pageAction"]
  | .hcaptcha _ => ["type", "websiteURL", "websiteKey"]
  | .hcaptchaClassification _ => ["type", "queries"]
  | .recaptchaV2Classification _ => ["type", "image", "question"]
  | .funCaptchaClassification _ => ["type", "images", "question"]
  | .turnstile _ => ["type", "websiteURL", "websiteKey"]
  | .cloudFlare _ => ["type", "websiteURL", "proxy", "waitLoad", "blockImage"]

/-- Key of an `Optional` field, listed when its value is absent (`None`). -/
def absentKey {α : Type} (k : String) : Option α → List String
  | none => [k]
  | some _ => []

/-- The keys of the `Optional` fields of this task instance whose value is
absent (`None`). -/
def Task.absentOptionalKeys : Task → List String
  | .imageToText t => absentKey "project_name" t.project_name
  | .noCaptcha _ => []
  | .recaptchaV2Enterprise t => absentKey "enterprisePayload" t.enterprisePayload
  | .recaptchaV3 _ => []
  | .recaptchaV3Enterprise t => absentKey "enterprisePayload" t.enterprisePayload
  | .hcaptcha _ => []
  | .hcaptchaClassification t =>
      absentKey "question" t.question ++ absentKey "anchors" t.anchors
  | .recaptchaV2Classification _ => []
  | .funCaptchaClassification _ => []
  | .turnstile _ => []
  | .cloudFlare t =>
      absentKey "userAgent" t.userAgent ++ absentKey "requiredCookies" t.requiredCookies
        ++ absentKey "postData" t.postData

/-- The entries of a JSON object (`[]` on non-objects). -/
def JsonValue.objEntries : JsonValue → List (String × JsonValue)
  | .obj o => o
  | _ => []

/-- Look a key up in a JSON object. -/
def JsonValue.lookupKey (j : JsonValue) (k : String) : Option JsonValue :=
  j.objEntries.lookup k

/-! ## Response models (`yescaptcha/models.py`) -/

/-- `Solution`: the well-known optional fields, plus `model_extra`, pydantic's
side map of the unrecognized keys kept by `model_config = {"extra": "allow"}`. -/
structure Solution where
  gRecaptchaResponse : Option String := none
  token : Option String := none
  text : Option String := none
  objects : Option (List Int) := none
  cookies : Option (List (String × String)) := none
  userAgent : Option String := none
  content : Option String := none
  model_extra : List (String × JsonValue) := []

/-- The declared field names of `Solution`. -/
def knownSolutionKeys : List String :=
  ["gRecaptchaResponse", "token", "text", "objects", "cookies", "userAgent", "content"]

/-- `dict[str, str]` optional field (the `cookies` map). -/
def optFieldStrMap (o : List (String × JsonValue)) (k : String) :
    Option (Option (List (String × String))) :=
  match o.lookup k with
  | none => some none
  | some .nul => some none
  | some (.obj m) => (asStrPairList m).map some
  | some _ => none

/-- `Solution.model_validate`: parse the declared fields, and keep every entry
with an unrecognized key in `model_extra` (`extra = "allow"`). -/
def Solution.model_validate (j : JsonValue) : Option Solution :=
  match j with
  | .obj o =>
      (optFieldStr o "gRecaptchaResponse").bind fun g =>
      (optFieldStr o "token").bind fun tok =>
      (optFieldStr o "text").bind fun tx =>
      (optFieldIntList o "objects").bind fun objs =>
      (optFieldStrMap o "cookies").bind fun cks =>
      (optFieldStr o "userAgent").bind fun ua =>
      (optFieldStr o "content").bind fun ct =>
      some ⟨g, tok, tx, objs, cks, ua, ct,
            o.filter (fun kv => !(knownSolutionKeys.contains kv.1))⟩
  | _ => none

/-- `CreateTaskResponse`. -/
structure CreateTaskResponse where
  errorId : Int
  errorCode : Option String := none
  errorDescription : Option String := none
  taskId : Option String := none

/-- `TaskResultResponse`.  `status` is `"processing"` or `"ready"` when
present; `solution` is present when the task is done. -/
structure TaskResultResponse where
  errorId : Int
  errorCode : Option String := none
  errorDescription : Option String := none
  status : Option String := none
  solution : Option Solution := none

/-! ## The `solve` workflow (`yescaptcha/client.py`)

`solve` creates the task, then polls `get_task_result` in a `while elapsed <
timeout` loop, sleeping `poll_interval` seconds and adding `poll_interval` to
`elapsed` after every poll that is not ready.  Durations are modelled over
`ℚ`.  The transport is a collaborator: the `createTask` reply is an input, and
the successive `getTaskResult` replies for a task id are a function
`server : String → ℕ → TaskResultResponse` (reply to the n-th poll for that
id).  The loop carries an explicit `fuel` bound on the remaining iterations;
`SolveOutcome.outOfFuel` marks exhaustion and occurs in no theorem below. -/

/-- The `TaskTimeoutError` raised by `solve` when the poll loop exits without
a ready result: description `f"任务 {task_id} 在 {timeout} 秒后超时"`. -/
def taskTimeoutError (task_id : String) (timeout : ℚ) : YesCaptchaErr :=
  { kind := .taskTimeout
    error_id := 1
    error_code := some "ERROR_TASK_TIMEOUT"
    error_description := some ("任务 " ++ task_id ++ " 在 " ++ toString timeout ++ " 秒后超时") }

/-- The `YesCaptchaError` raised by `solve` when `createTask` reported success
but `taskId` is falsy (absent or empty). -/
def noTaskIdError : YesCaptchaErr :=
  { kind := .base
    error_id := 1
    error_code := some "ERROR_NO_TASK_ID"
    error_description := some "createTask 未返回任务 ID" }

/-- How a `solve` run ends. -/
inductive SolveOutcome where
  | ok (s : Solution)
  | err (e : YesCaptchaErr)
  | outOfFuel

/-- Observable trace of a `solve` run: its outcome, the number of
`get_task_result` polls it performed, and the number of `asyncio.sleep`
suspensions it performed. -/
structure SolveTrace where
  outcome : SolveOutcome
  polls : ℕ
  sleeps : ℕ

/-- The poll loop of `solve`.  On entry to an iteration, `n` polls and `n`
sleeps have happened and `elapsed = n * poll_interval`.  Each iteration:
re-check `elapsed < timeout`; poll (`get_task_result` raises mapped API errors
via `raise_for_error`); if `status == "ready"` and a solution is present,
return it at once; otherwise sleep and add `poll_interval` to `elapsed`. -/
def solveLoop (poll : ℕ → TaskResultResponse) (task_id : String)
    (poll_interval timeout : ℚ) : ℕ → ℕ → ℚ → SolveTrace
  | 0, n, elapsed =>
      if elapsed < timeout then ⟨.outOfFuel, n, n⟩
      else ⟨.err (taskTimeoutError task_id timeout), n, n⟩
  | fuel + 1, n, elapsed =>
      if elapsed < timeout then
        let result := poll n
        match raise_for_error result.errorId result.errorCode result.errorDescription with
        | some e => ⟨.err e, n + 1, n⟩
        | none =>
          match result.status == some "ready", result.solution with
          | true, some sol => ⟨.ok sol, n + 1, n⟩
          | _, _ =>
              solveLoop poll task_id poll_interval timeout fuel (n + 1)
                (elapsed + poll_interval)
      else ⟨.err (taskTimeoutError task_id timeout), n, n⟩

/-- `YesCaptchaClient.solve`.  `client_timeout` is the client's configured
`self.timeout`, used when the per-call `timeout` is `None`; `createResp` is
the (validated) `createTask` reply; `raise_for_error` runs on it inside
`create_task`.  A falsy `taskId` (`if not task_id`) raises `ERROR_NO_TASK_ID`;
otherwise the loop polls `server task_id`. -/
def solve (client_timeout : ℚ) (createResp : CreateTaskResponse)
    (server : String → ℕ → TaskResultResponse) (fuel : ℕ)
    (poll_interval : ℚ := 3) (timeout : Option ℚ := none) : SolveTrace :=
  let timeoutEff := timeout.getD client_timeout
  match raise_for_error createResp.errorId createResp.errorCode createResp.errorDescription with
  | some e => ⟨.err e, 0, 0⟩
  | none =>
    match createResp.taskId with
    | none => ⟨.err noTaskIdError, 0, 0⟩
    | some task_id =>
      if task_id = "" then ⟨.err noTaskIdError, 0, 0⟩
      else solveLoop (server task_id) task_id poll_interval timeoutEff fuel 0 0

/-! ## Helper lemmas -/

/-- A key that is not among the keys of an association list has no binding. -/
theorem lookup_eq_none_of_not_mem {β : Type} {k : String} {l : List (String × β)}
    (h : k ∉ l.map Prod.fst) : l.lookup k = none := by
  induction l with
  | nil => rfl
  | cons p t ih =>
      obtain ⟨p1, p2⟩ := p
      simp only [List.map_cons, List.mem_cons, not_or] at h
      have hb : (k == p1) = false := beq_eq_false_iff_ne.mpr h.1
      simp [List.lookup, hb, ih h.2]

/-! ## C1: the error-code mapping -/

/-- C1.  With a non-zero `errorId`, `raise_for_error` raises exactly the
exception class that `ERROR_CODE_MAP` assigns to the error code — the thirteen
mapped codes each give their mapped class, and any other non-empty code gives
the base class `YesCaptchaError` (the generic fallback) — and the raised error
always carries the original error id, code and description verbatim. -/
theorem raise_for_error_maps_codes (id : Int) (hid : id ≠ 0) (desc : Option String) :
    (raise_for_error id (some "ERROR_TASK_TIMEOUT") desc =
      some ⟨.taskTimeout, id, some "ERROR_TASK_TIMEOUT", desc⟩) ∧
    (raise_for_error id (some "ERROR_ZERO_BALANCE") desc =
      some ⟨.insufficientBalance, id, some "ERROR_ZERO_BALANCE", desc⟩) ∧
    (raise_for_error id (some "ERROR_KEY_DOES_NOT_EXIST") desc =
      some ⟨.invalidKey, id, some "ERROR_KEY_DOES_NOT_EXIST", desc⟩) ∧
    (raise_for_error id (some "ERROR_CAPTCHA_UNSOLVABLE") desc =
      some ⟨.taskUnsolvable, id, some "ERROR_CAPTCHA_UNSOLVABLE", desc⟩) ∧
    (raise_for_error id (some "ERROR_IP_BLOCKED_5MIN") desc =
      some ⟨.ipBlocked, id, some "ERROR_IP_BLOCKED_5MIN", desc⟩) ∧
    (raise_for_error id (some "ERROR_IP_BANNED") desc =
      some ⟨.ipBlocked, id, some "ERROR_IP_BANNED", desc⟩) ∧
    (raise_for_error id (some "ERROR_NO_SLOT_AVAILABLE") desc =
      some ⟨.noSlotAvailable, id, some "ERROR_NO_SLOT_AVAILABLE", desc⟩) ∧
    (raise_for_error id (some "ERROR_NO_SLOT_AVAILABLE_BLOCK") desc =
      some ⟨.noSlotAvailable, id, some "ERROR_NO_SLOT_AVAILABLE_BLOCK", desc⟩) ∧
    (raise_for_error id (some "ERROR_TASK_NOT_SUPPORTED") desc =
      some ⟨.taskNotSupported, id, some "ERROR_TASK_NOT_SUPPORTED", desc⟩) ∧
    (raise_for_error id (some "ERROR_TASKID_INVALID") desc =
      some ⟨.invalidTaskId, id, some "ERROR_TASKID_INVALID", desc⟩) ∧
    (raise_for_error id (some "ERROR_NO_SUCH_CAPCHA_ID") desc =
      some ⟨.invalidTaskId, id, some "ERROR_NO_SUCH_CAPCHA_ID", desc⟩) ∧
    (raise_for_error id (some "ERROR_BAD_REQUEST") desc =
      some ⟨.badRequest, id, some "ERROR_BAD_REQUEST", desc⟩) ∧
    (raise_for_error id (some "ERROR_SERVICE_UNAVALIABLE") desc =
      some ⟨.serviceUnavailable, id, some "ERROR_SERVICE_UNAVALIABLE", desc⟩) ∧
    (∀ c : String, c ≠ "" → c ∉ mappedErrorCodes →
      raise_for_error id (some c) desc = some ⟨.base, id, some c, desc⟩) := by
  have fallback : ∀ c : String, c ≠ "" → c ∉ mappedErrorCodes →
      raise_for_error id (some c) desc = some ⟨.base, id, some c, desc⟩ := by
    intro c _ hc
    have hl : ERROR_CODE_MAP.lookup c = none :=
      lookup_eq_none_of_not_mem (by simpa [mappedErrorCodes] using hc)
    simp [raise_for_error, hid, hl]
  refine ⟨?_, ?_, ?_, ?_, ?_, ?_, ?_, ?_, ?_, ?_, ?_, ?_, ?_, fallback⟩
  all_goals simp [raise_for_error, hid, ERROR_CODE_MAP, List.lookup]

/-- Witness for C1 at concrete inputs: one mapped code and one unmapped code. -/
theorem raise_for_error_maps_codes_witness :
    raise_for_error 1 (some "ERROR_ZERO_BALANCE") (some "Account balance is insufficient") =
      some ⟨.insufficientBalance, 1, some "ERROR_ZERO_BALANCE",
            some "Account balance is insufficient"⟩ ∧
    raise_for_error 1 (some "ERROR_TOTALLY_UNKNOWN") (some "d") =
      some ⟨.base, 1, some "ERROR_TOTALLY_UNKNOWN", some "d"⟩ :=
  ⟨(raise_for_error_maps_codes 1 (by decide) (some "Account balance is insufficient")).2.1,
   (raise_for_error_maps_codes 1 (by decide) (some "d")).2.2.2.2.2.2.2.2.2.2.2.2.2
     "ERROR_TOTALLY_UNKNOWN" (by decide) (by decide)⟩

/-! ## C2: `errorId == 0` is a no-op -/

/-- C2.  Whatever the code and description (including `None`),
`raise_for_error` with `errorId == 0` returns normally and raises nothing. -/
theorem raise_for_error_zero_noop (code desc : Option String) :
    raise_for_error 0 code desc = none := rfl

/-! ## C9: unrecognized Solution fields are preserved -/

/-- Keeping only the unrecognized entries does not change the binding of an
unrecognized key. -/
theorem lookup_filter_unknown (k : String) (hk : k ∉ knownSolutionKeys) :
    ∀ l : List (String × JsonValue),
      (l.filter (fun kv => !(knownSolutionKeys.contains kv.1))).lookup k = l.lookup k := by
  intro l
  induction l with
  | nil => rfl
  | cons p t ih =>
      obtain ⟨p1, p2⟩ := p
      by_cases hp : p1 ∈ knownSolutionKeys
      · have hne : (k == p1) = false :=
          beq_eq_false_iff_ne.mpr (by rintro rfl; exact hk hp)
        simpa [List.filter_cons, hp, List.lookup, hne] using ih
      · cases hkp : k == p1
        · simpa [List.filter_cons, hp, List.lookup, hkp] using ih
        · simp [List.filter_cons, hp, List.lookup, hkp]

/-- C9.  Deserializing a `Solution` payload keeps every field that is not in
the declared schema retrievable from `model_extra` (first conjunct: any
unrecognized key keeps exactly the binding it had in the payload), and in the
concrete scenario `{token: "xyz", customField: "customValue"}` both the
declared `token` field and the unrecognized `customField` are retrievable. -/
theorem solution_model_validate_preserves_extra :
    (∀ (o : List (String × JsonValue)) (k : String) (s : Solution),
        k ∉ knownSolutionKeys →
        Solution.model_validate (.obj o) = some s →
        s.model_extra.lookup k = o.lookup k) ∧
    (∃ s, Solution.model_validate
        (.obj [("token", .str "xyz"), ("customField", .str "customValue")]) = some s ∧
      s.token = some "xyz" ∧
      s.model_extra.lookup "customField" = some (.str "customValue")) := by
  constructor
  · intro o k s hk hval
    simp only [Solution.model_validate, Option.bind_eq_some, Option.some.injEq] at hval
    obtain ⟨g, hg, tok, htok, tx, htx, objs, hobjs, cks, hcks, ua, hua, ct, hct, hs⟩ := hval
    rw [← hs]
    exact lookup_filter_unknown k hk o
  · exact ⟨_, rfl, rfl, rfl⟩

/-- The `Solution` produced in the C9 scenario. -/
def c9Solution : Solution :=
  { token := some "xyz", model_extra := [("customField", .str "customValue")] }

/-- Witness for C9's universally quantified conjunct at the scenario payload. -/
theorem solution_model_validate_preserves_extra_witness :
    c9Solution.model_extra.lookup "customField" =
      ([("token", JsonValue.str "xyz"), ("customField", JsonValue.str "customValue")]).lookup
        "customField" :=
  solution_model_validate_preserves_extra.1
    [("token", .str "xyz"), ("customField", .str "customValue")]
    "customField" c9Solution (by decide) rfl

/-! ## C6: serialization shape and validation round trip -/

/-- Parsing back a serialized `list[str]` recovers it. -/
theorem asStrList_map_str (xs : List String) : asStrList (xs.map JsonValue.str) = some xs := by
  induction xs with
  | nil => rfl
  | cons x t ih => simp [asStrList, asStr, ih]

set_option maxHeartbeats 3200000 in
/-- C6.  For every constructible `Task` (discriminator within its variant's
`Literal` set), `model_dump(exclude_none=True)` yields a flat JSON object
that (i) carries the discriminator under `"type"`, (ii) carries every
non-`Optional` declared field, (iii) contains no `null` value at all, and
(iv) omits every `Optional` field whose value is absent; and structurally
validating the serialized form gives back exactly the task that was
serialized, so serialize-then-validate is idempotent on the shape. -/
theorem task_model_dump_shape_roundtrip (t : Task) (h : t.WF) :
    (Task.model_dump t).lookupKey "type" = some (.str t.typeStr) ∧
    (∀ k ∈ t.requiredKeys, ((Task.model_dump t).lookupKey k).isSome = true) ∧
    (∀ kv ∈ (Task.model_dump t).objEntries, kv.2 ≠ .nul) ∧
    (∀ k ∈ t.absentOptionalKeys, (Task.model_dump t).lookupKey k = none) ∧
    Task.model_validate (Task.model_dump t) = some t := by
  cases t with
  | imageToText t =>
      obtain ⟨ty, body, pn⟩ := t
      simp only [Task.WF, Task.typeStr, Task.allowedTypes,
        ImageToTextTask.allowedTypes, List.mem_cons, List.not_mem_nil, or_false] at h
      rcases h with rfl | rfl | rfl <;> rcases pn with _ | pn <;>
        simp [Task.model_dump, Task.typeStr, Task.requiredKeys, Task.absentOptionalKeys,
      JsonValue.lookupKey, JsonValue.objEntries, absentKey, List.lookup,
      ImageToTextTask.model_dump, NoCaptchaTaskProxyless.model_dump,
      RecaptchaV2EnterpriseTaskProxyless.model_dump, RecaptchaV3TaskProxyless.model_dump,
      RecaptchaV3EnterpriseTask.model_dump, HCaptchaTaskProxyless.model_dump,
      HCaptchaClassification.model_dump, ReCaptchaV2Classification.model_dump,
      FunCaptchaClassification.model_dump, TurnstileTaskProxyless.model_dump,
      CloudFlareTask.model_dump, optEntryStr, optEntryStrList, optEntryObj,
      Task.model_validate, ImageToTextTask.model_validate, NoCaptchaTaskProxyless.model_validate,
      RecaptchaV2EnterpriseTaskProxyless.model_validate, RecaptchaV3TaskProxyless.model_validate,
      RecaptchaV3EnterpriseTask.model_validate, HCaptchaTaskProxyless.model_validate,
      HCaptchaClassification.model_validate, ReCaptchaV2Classification.model_validate,
      FunCaptchaClassification.model_validate, TurnstileTaskProxyless.model_validate,
      CloudFlareTask.model_validate, typeField, reqStr, reqStrList, optFieldStr,
      optFieldStrList, optFieldObj, boolFieldD, asStr, asStrList_map_str,
      ImageToTextTask.allowedTypes, NoCaptchaTaskProxyless.allowedTypes,
      RecaptchaV2EnterpriseTaskProxyless.allowedTypes, RecaptchaV3TaskProxyless.allowedTypes,
      RecaptchaV3EnterpriseTask.allowedTypes, HCaptchaTaskProxyless.allowedTypes,
      HCaptchaClassification.allowedTypes, ReCaptchaV2Classification.allowedTypes,
      FunCaptchaClassification.allowedTypes, TurnstileTaskProxyless.allowedTypes,
      CloudFlareTask.allowedTypes]
  | noCaptcha t =>
      obtain ⟨ty, url, key, inv⟩ := t
      simp only [Task.WF, Task.typeStr, Task.allowedTypes,
        NoCaptchaTaskProxyless.allowedTypes, List.mem_cons, List.not_mem_nil, or_false] at h
      rcases h with rfl | rfl <;>
        simp [Task.model_dump, Task.typeStr, Task.requiredKeys, Task.absentOptionalKeys,
      JsonValue.lookupKey, JsonValue.objEntries, absentKey, List.lookup,
      ImageToTextTask.model_dump, NoCaptchaTaskProxyless.model_dump,
      RecaptchaV2EnterpriseTaskProxyless.model_dump, RecaptchaV3TaskProxyless.model_dump,
      RecaptchaV3EnterpriseTask.model_dump, HCaptchaTaskProxyless.model_dump,
      HCaptchaClassification.model_dump, ReCaptchaV2Classification.model_dump,
      FunCaptchaClassification.model_dump, TurnstileTaskProxyless.model_dump,
      CloudFlareTask.model_dump, optEntryStr, optEntryStrList, optEntryObj,
      Task.model_validate, ImageToTextTask.model_validate, NoCaptchaTaskProxyless.model_validate,
      RecaptchaV2EnterpriseTaskProxyless.model_validate, RecaptchaV3TaskProxyless.model_validate,
      RecaptchaV3EnterpriseTask.model_validate, HCaptchaTaskProxyless.model_validate,
      HCaptchaClassification.model_validate, ReCaptchaV2Classification.model_validate,
      FunCaptchaClassification.model_validate, TurnstileTaskProxyless.model_validate,
      CloudFlareTask.model_validate, typeField, reqStr, reqStrList, optFieldStr,
      optFieldStrList, optFieldObj, boolFieldD, asStr, asStrList_map_str,
      ImageToTextTask.allowedTypes, NoCaptchaTaskProxyless.allowedTypes,
      RecaptchaV2EnterpriseTaskProxyless.allowedTypes, RecaptchaV3TaskProxyless.allowedTypes,
      RecaptchaV3EnterpriseTask.allowedTypes, HCaptchaTaskProxyless.allowedTypes,
      HCaptchaClassification.allowedTypes, ReCaptchaV2Classification.allowedTypes,
      FunCaptchaClassification.allowedTypes, TurnstileTaskProxyless.allowedTypes,
      CloudFlareTask.allowedTypes]
  | recaptchaV2Enterprise t =>
      obtain ⟨ty, url, key, ep⟩ := t
      simp only [Task.WF, Task.typeStr, Task.allowedTypes,
        RecaptchaV2EnterpriseTaskProxyless.allowedTypes, List.mem_cons, List.not_mem_nil, or_false] at h
      rcases h with rfl <;> rcases ep with _ | ep <;>
        simp [Task.model_dump, Task.typeStr, Task.requiredKeys, Task.absentOptionalKeys,
      JsonValue.lookupKey, JsonValue.objEntries, absentKey, List.lookup,
      ImageToTextTask.model_dump, NoCaptchaTaskProxyless.model_dump,
      RecaptchaV2EnterpriseTaskProxyless.model_dump, RecaptchaV3TaskProxyless.model_dump,
      RecaptchaV3EnterpriseTask.model_dump, HCaptchaTaskProxyless.model_dump,
      HCaptchaClassification.model_dump, ReCaptchaV2Classification.model_dump,
      FunCaptchaClassification.model_dump, TurnstileTaskProxyless.model_dump,
      CloudFlareTask.model_dump, optEntryStr, optEntryStrList, optEntryObj,
      Task.model_validate, ImageToTextTask.model_validate, NoCaptchaTaskProxyless.model_validate,
      RecaptchaV2EnterpriseTaskProxyless.model_validate, RecaptchaV3TaskProxyless.model_validate,
      RecaptchaV3EnterpriseTask.model_validate, HCaptchaTaskProxyless.model_validate,
      HCaptchaClassification.model_validate, ReCaptchaV2Classification.model_validate,
      FunCaptchaClassification.model_validate, TurnstileTaskProxyless.model_validate,
      CloudFlareTask.model_validate, typeField, reqStr, reqStrList, optFieldStr,
      optFieldStrList, optFieldObj, boolFieldD, asStr, asStrList_map_str,
      ImageToTextTask.allowedTypes, NoCaptchaTaskProxyless.allowedTypes,
      RecaptchaV2EnterpriseTaskProxyless.allowedTypes, RecaptchaV3TaskProxyless.allowedTypes,
      RecaptchaV3EnterpriseTask.allowedTypes, HCaptchaTaskProxyless.allowedTypes,
      HCaptchaClassification.allowedTypes, ReCaptchaV2Classification.allowedTypes,
      FunCaptchaClassification.allowedTypes, TurnstileTaskProxyless.allowedTypes,
      CloudFlareTask.allowedTypes]
  | recaptchaV3 t =>
      obtain ⟨ty, url, key, action⟩ := t
      simp only [Task.WF, Task.typeStr, Task.allowedTypes,
        RecaptchaV3TaskProxyless.allowedTypes, List.mem_cons, List.not_mem_nil, or_false] at h
      rcases h with rfl | rfl <;>
        simp [Task.model_dump, Task.typeStr, Task.requiredKeys, Task.absentOptionalKeys,
      JsonValue.lookupKey, JsonValue.objEntries, absentKey, List.lookup,
      ImageToTextTask.model_dump, NoCaptchaTaskProxyless.model_dump,
      RecaptchaV2EnterpriseTaskProxyless.model_dump, RecaptchaV3TaskProxyless.model_dump,
      RecaptchaV3EnterpriseTask.model_dump, HCaptchaTaskProxyless.model_dump,
      HCaptchaClassification.model_dump, ReCaptchaV2Classification.model_dump,
      FunCaptchaClassification.model_dump, TurnstileTaskProxyless.model_dump,
      CloudFlareTask.model_dump, optEntryStr, optEntryStrList, optEntryObj,
      Task.model_validate, ImageToTextTask.model_validate, NoCaptchaTaskProxyless.model_validate,
      RecaptchaV2EnterpriseTaskProxyless.model_validate, RecaptchaV3TaskProxyless.model_validate,
      RecaptchaV3EnterpriseTask.model_validate, HCaptchaTaskProxyless.model_validate,
      HCaptchaClassification.model_validate, ReCaptchaV2Classification.model_validate,
      FunCaptchaClassification.model_validate, TurnstileTaskProxyless.model_validate,
      CloudFlareTask.model_validate, typeField, reqStr, reqStrList, optFieldStr,
      optFieldStrList, optFieldObj, boolFieldD, asStr, asStrList_map_str,
      ImageToTextTask.allowedTypes, NoCaptchaTaskProxyless.allowedTypes,
      RecaptchaV2EnterpriseTaskProxyless.allowedTypes, RecaptchaV3TaskProxyless.allowedTypes,
      RecaptchaV3EnterpriseTask.allowedTypes, HCaptchaTaskProxyless.allowedTypes,
      HCaptchaClassification.allowedTypes, ReCaptchaV2Classification.allowedTypes,
      FunCaptchaClassification.allowedTypes, TurnstileTaskProxyless.allowedTypes,
      CloudFlareTask.allowedTypes]
  | recaptchaV3Enterprise t =>
      obtain ⟨ty, url, key, action, ep⟩ := t
      simp only [Task.WF, Task.typeStr, Task.allowedTypes,
        RecaptchaV3EnterpriseTask.allowedTypes, List.mem_cons, List.not_mem_nil, or_false] at h
      rcases h with rfl | rfl <;> rcases ep with _ | ep <;>
        simp [Task.model_dump, Task.typeStr, Task.requiredKeys, Task.absentOptionalKeys,
      JsonValue.lookupKey, JsonValue.objEntries, absentKey, List.lookup,
      ImageToTextTask.model_dump, NoCaptchaTaskProxyless.model_dump,
      RecaptchaV2EnterpriseTaskProxyless.model_dump, RecaptchaV3TaskProxyless.model_dump,
      RecaptchaV3EnterpriseTask.model_dump, HCaptchaTaskProxyless.model_dump,
      HCaptchaClassification.model_dump, ReCaptchaV2Classification.model_dump,
      FunCaptchaClassification.model_dump, TurnstileTaskProxyless.model_dump,
      CloudFlareTask.model_dump, optEntryStr, optEntryStrList, optEntryObj,
      Task.model_validate, ImageToTextTask.model_validate, NoCaptchaTaskProxyless.model_validate,
      RecaptchaV2EnterpriseTaskProxyless.model_validate, RecaptchaV3TaskProxyless.model_validate,
      RecaptchaV3EnterpriseTask.model_validate, HCaptchaTaskProxyless.model_validate,
      HCaptchaClassification.model_validate, ReCaptchaV2Classification.model_validate,
      FunCaptchaClassification.model_validate, TurnstileTaskProxyless.model_validate,
      CloudFlareTask.model_validate, typeField, reqStr, reqStrList, optFieldStr,
      optFieldStrList, optFieldObj, boolFieldD, asStr, asStrList_map_str,
      ImageToTextTask.allowedTypes, NoCaptchaTaskProxyless.allowedTypes,
      RecaptchaV2EnterpriseTaskProxyless.allowedTypes, RecaptchaV3TaskProxyless.allowedTypes,
      RecaptchaV3EnterpriseTask.allowedTypes, HCaptchaTaskProxyless.allowedTypes,
      HCaptchaClassification.allowedTypes, ReCaptchaV2Classification.allowedTypes,
      FunCaptchaClassification.allowedTypes, TurnstileTaskProxyless.allowedTypes,
      CloudFlareTask.allowedTypes]
  | hcaptcha t =>
      obtain ⟨ty, url, key⟩ := t
      simp only [Task.WF, Task.typeStr, Task.allowedTypes,
        HCaptchaTaskProxyless.allowedTypes, List.mem_cons, List.not_mem_nil, or_false] at h
      rcases h with rfl <;>
        simp [Task.model_dump, Task.typeStr, Task.requiredKeys, Task.absentOptionalKeys,
      JsonValue.lookupKey, JsonValue.objEntries, absentKey, List.lookup,
      ImageToTextTask.model_dump, NoCaptchaTaskProxyless.model_dump,
      RecaptchaV2EnterpriseTaskProxyless.model_dump, RecaptchaV3TaskProxyless.model_dump,
      RecaptchaV3EnterpriseTask.model_dump, HCaptchaTaskProxyless.model_dump,
      HCaptchaClassification.model_dump, ReCaptchaV2Classification.model_dump,
      FunCaptchaClassification.model_dump, TurnstileTaskProxyless.model_dump,
      CloudFlareTask.model_dump, optEntryStr, optEntryStrList, optEntryObj,
      Task.model_validate, ImageToTextTask.model_validate, NoCaptchaTaskProxyless.model_validate,
      RecaptchaV2EnterpriseTaskProxyless.model_validate, RecaptchaV3TaskProxyless.model_validate,
      RecaptchaV3EnterpriseTask.model_validate, HCaptchaTaskProxyless.model_validate,
      HCaptchaClassification.model_validate, ReCaptchaV2Classification.model_validate,
      FunCaptchaClassification.model_validate, TurnstileTaskProxyless.model_validate,
      CloudFlareTask.model_validate, typeField, reqStr, reqStrList, optFieldStr,
      optFieldStrList, optFieldObj, boolFieldD, asStr, asStrList_map_str,
      ImageToTextTask.allowedTypes, NoCaptchaTaskProxyless.allowedTypes,
      RecaptchaV2EnterpriseTaskProxyless.allowedTypes, RecaptchaV3TaskProxyless.allowedTypes,
      RecaptchaV3EnterpriseTask.allowedTypes, HCaptchaTaskProxyless.allowedTypes,
      HCaptchaClassification.allowedTypes, ReCaptchaV2Classification.allowedTypes,
      FunCaptchaClassification.allowedTypes, TurnstileTaskProxyless.allowedTypes,
      CloudFlareTask.allowedTypes]
  | hcaptchaClassification t =>
      obtain ⟨ty, qs, question, anchors⟩ := t
      simp only [Task.WF, Task.typeStr, Task.allowedTypes,
        HCaptchaClassification.allowedTypes, List.mem_cons, List.not_mem_nil, or_false] at h
      rcases h with rfl <;> rcases question with _ | question <;> rcases anchors with _ | anchors <;>
        simp [Task.model_dump, Task.typeStr, Task.requiredKeys, Task.absentOptionalKeys,
      JsonValue.lookupKey, JsonValue.objEntries, absentKey, List.lookup,
      ImageToTextTask.model_dump, NoCaptchaTaskProxyless.model_dump,
      RecaptchaV2EnterpriseTaskProxyless.model_dump, RecaptchaV3TaskProxyless.model_dump,
      RecaptchaV3EnterpriseTask.model_dump, HCaptchaTaskProxyless.model_dump,
      HCaptchaClassification.model_dump, ReCaptchaV2Classification.model_dump,
      FunCaptchaClassification.model_dump, TurnstileTaskProxyless.model_dump,
      CloudFlareTask.model_dump, optEntryStr, optEntryStrList, optEntryObj,
      Task.model_validate, ImageToTextTask.model_validate, NoCaptchaTaskProxyless.model_validate,
      RecaptchaV2EnterpriseTaskProxyless.model_validate, RecaptchaV3TaskProxyless.model_validate,
      RecaptchaV3EnterpriseTask.model_validate, HCaptchaTaskProxyless.model_validate,
      HCaptchaClassification.model_validate, ReCaptchaV2Classification.model_validate,
      FunCaptchaClassification.model_validate, TurnstileTaskProxyless.model_validate,
      CloudFlareTask.model_validate, typeField, reqStr, reqStrList, optFieldStr,
      optFieldStrList, optFieldObj, boolFieldD, asStr, asStrList_map_str,
      ImageToTextTask.allowedTypes, NoCaptchaTaskProxyless.allowedTypes,
      RecaptchaV2EnterpriseTaskProxyless.allowedTypes, RecaptchaV3TaskProxyless.allowedTypes,
      RecaptchaV3EnterpriseTask.allowedTypes, HCaptchaTaskProxyless.allowedTypes,
      HCaptchaClassification.allowedTypes, ReCaptchaV2Classification.allowedTypes,
      FunCaptchaClassification.allowedTypes, TurnstileTaskProxyless.allowedTypes,
      CloudFlareTask.allowedTypes]
  | recaptchaV2Classification t =>
      obtain ⟨ty, img, question⟩ := t
      simp only [Task.WF, Task.typeStr, Task.allowedTypes,
        ReCaptchaV2Classification.allowedTypes, List.mem_cons, List.not_mem_nil, or_false] at h
      rcases h with rfl <;>
        simp [Task.model_dump, Task.typeStr, Task.requiredKeys, Task.absentOptionalKeys,
      JsonValue.lookupKey, JsonValue.objEntries, absentKey, List.lookup,
      ImageToTextTask.model_dump, NoCaptchaTaskProxyless.model_dump,
      RecaptchaV2EnterpriseTaskProxyless.model_dump, RecaptchaV3TaskProxyless.model_dump,
      RecaptchaV3EnterpriseTask.model_dump, HCaptchaTaskProxyless.model_dump,
      HCaptchaClassification.model_dump, ReCaptchaV2Classification.model_dump,
      FunCaptchaClassification.model_dump, TurnstileTaskProxyless.model_dump,
      CloudFlareTask.model_dump, optEntryStr, optEntryStrList, optEntryObj,
      Task.model_validate, ImageToTextTask.model_validate, NoCaptchaTaskProxyless.model_validate,
      RecaptchaV2EnterpriseTaskProxyless.model_validate, RecaptchaV3TaskProxyless.model_validate,
      RecaptchaV3EnterpriseTask.model_validate, HCaptchaTaskProxyless.model_validate,
      HCaptchaClassification.model_validate, ReCaptchaV2Classification.model_validate,
      FunCaptchaClassification.model_validate, TurnstileTaskProxyless.model_validate,
      CloudFlareTask.model_validate, typeField, reqStr, reqStrList, optFieldStr,
      optFieldStrList, optFieldObj, boolFieldD, asStr, asStrList_map_str,
      ImageToTextTask.allowedTypes, NoCaptchaTaskProxyless.allowedTypes,
      RecaptchaV2EnterpriseTaskProxyless.allowedTypes, RecaptchaV3TaskProxyless.allowedTypes,
      RecaptchaV3EnterpriseTask.allowedTypes, HCaptchaTaskProxyless.allowedTypes,
      HCaptchaClassification.allowedTypes, ReCaptchaV2Classification.allowedTypes,
      FunCaptchaClassification.allowedTypes, TurnstileTaskProxyless.allowedTypes,
      CloudFlareTask.allowedTypes]
  | funCaptchaClassification t =>
      obtain ⟨ty, imgs, question⟩ := t
      simp only [Task.WF, Task.typeStr, Task.allowedTypes,
        FunCaptchaClassification.allowedTypes, List.mem_cons, List.not_mem_nil, or_false] at h
      rcases h with rfl <;>
        simp [Task.model_dump, Task.typeStr, Task.requiredKeys, Task.absentOptionalKeys,
      JsonValue.lookupKey, JsonValue.objEntries, absentKey, List.lookup,
      ImageToTextTask.model_dump, NoCaptchaTaskProxyless.model_dump,
      RecaptchaV2EnterpriseTaskProxyless.model_dump, RecaptchaV3TaskProxyless.model_dump,
      RecaptchaV3EnterpriseTask.model_dump, HCaptchaTaskProxyless.model_dump,
      HCaptchaClassification.model_dump, ReCaptchaV2Classification.model_dump,
      FunCaptchaClassification.model_dump, TurnstileTaskProxyless.model_dump,
      CloudFlareTask.model_dump, optEntryStr, optEntryStrList, optEntryObj,
      Task.model_validate, ImageToTextTask.model_validate, NoCaptchaTaskProxyless.model_validate,
      RecaptchaV2EnterpriseTaskProxyless.model_validate, RecaptchaV3TaskProxyless.model_validate,
      RecaptchaV3EnterpriseTask.model_validate, HCaptchaTaskProxyless.model_validate,
      HCaptchaClassification.model_validate, ReCaptchaV2Classification.model_validate,
      FunCaptchaClassification.model_validate, TurnstileTaskProxyless.model_validate,
      CloudFlareTask.model_validate, typeField, reqStr, reqStrList, optFieldStr,
      optFieldStrList, optFieldObj, boolFieldD, asStr, asStrList_map_str,
      ImageToTextTask.allowedTypes, NoCaptchaTaskProxyless.allowedTypes,
      RecaptchaV2EnterpriseTaskProxyless.allowedTypes, RecaptchaV3TaskProxyless.allowedTypes,
      RecaptchaV3EnterpriseTask.allowedTypes, HCaptchaTaskProxyless.allowedTypes,
      HCaptchaClassification.allowedTypes, ReCaptchaV2Classification.allowedTypes,
      FunCaptchaClassification.allowedTypes, TurnstileTaskProxyless.allowedTypes,
      CloudFlareTask.allowedTypes]
  | turnstile t =>
      obtain ⟨ty, url, key⟩ := t
      simp only [Task.WF, Task.typeStr, Task.allowedTypes,
        TurnstileTaskProxyless.allowedTypes, List.mem_cons, List.not_mem_nil, or_false] at h
      rcases h with rfl | rfl <;>
        simp [Task.model_dump, Task.typeStr, Task.requiredKeys, Task.absentOptionalKeys,
      JsonValue.lookupKey, JsonValue.objEntries, absentKey, List.lookup,
      ImageToTextTask.model_dump, NoCaptchaTaskProxyless.model_dump,
      RecaptchaV2EnterpriseTaskProxyless.model_dump, RecaptchaV3TaskProxyless.model_dump,
      RecaptchaV3EnterpriseTask.model_dump, HCaptchaTaskProxyless.model_dump,
      HCaptchaClassification.model_dump, ReCaptchaV2Classification.model_dump,
      FunCaptchaClassification.model_dump, TurnstileTaskProxyless.model_dump,
      CloudFlareTask.model_dump, optEntryStr, optEntryStrList, optEntryObj,
      Task.model_validate, ImageToTextTask.model_validate, NoCaptchaTaskProxyless.model_validate,
      RecaptchaV2EnterpriseTaskProxyless.model_validate, RecaptchaV3TaskProxyless.model_validate,
      RecaptchaV3EnterpriseTask.model_validate, HCaptchaTaskProxyless.model_validate,
      HCaptchaClassification.model_validate, ReCaptchaV2Classification.model_validate,
      FunCaptchaClassification.model_validate, TurnstileTaskProxyless.model_validate,
      CloudFlareTask.model_validate, typeField, reqStr, reqStrList, optFieldStr,
      optFieldStrList, optFieldObj, boolFieldD, asStr, asStrList_map_str,
      ImageToTextTask.allowedTypes, NoCaptchaTaskProxyless.allowedTypes,
      RecaptchaV2EnterpriseTaskProxyless.allowedTypes, RecaptchaV3TaskProxyless.allowedTypes,
      RecaptchaV3EnterpriseTask.allowedTypes, HCaptchaTaskProxyless.allowedTypes,
      HCaptchaClassification.allowedTypes, ReCaptchaV2Classification.allowedTypes,
      FunCaptchaClassification.allowedTypes, TurnstileTaskProxyless.allowedTypes,
      CloudFlareTask.allowedTypes]
  | cloudFlare t =>
      obtain ⟨ty, url, proxy, ua, wl, rc, bi, pd⟩ := t
      simp only [Task.WF, Task.typeStr, Task.allowedTypes,
        CloudFlareTask.allowedTypes, List.mem_cons, List.not_mem_nil, or_false] at h
      rcases h with rfl | rfl <;> rcases ua with _ | ua <;> rcases rc with _ | rc <;> rcases pd with _ | pd <;>
        simp [Task.model_dump, Task.typeStr, Task.requiredKeys, Task.absentOptionalKeys,
      JsonValue.lookupKey, JsonValue.objEntries, absentKey, List.lookup,
      ImageToTextTask.model_dump, NoCaptchaTaskProxyless.model_dump,
      RecaptchaV2EnterpriseTaskProxyless.model_dump, RecaptchaV3TaskProxyless.model_dump,
      RecaptchaV3EnterpriseTask.model_dump, HCaptchaTaskProxyless.model_dump,
      HCaptchaClassification.model_dump, ReCaptchaV2Classification.model_dump,
      FunCaptchaClassification.model_dump, TurnstileTaskProxyless.model_dump,
      CloudFlareTask.model_dump, optEntryStr, optEntryStrList, optEntryObj,
      Task.model_validate, ImageToTextTask.model_validate, NoCaptchaTaskProxyless.model_validate,
      RecaptchaV2EnterpriseTaskProxyless.model_validate, RecaptchaV3TaskProxyless.model_validate,
      RecaptchaV3EnterpriseTask.model_validate, HCaptchaTaskProxyless.model_validate,
      HCaptchaClassification.model_validate, ReCaptchaV2Classification.model_validate,
      FunCaptchaClassification.model_validate, TurnstileTaskProxyless.model_validate,
      CloudFlareTask.model_validate, typeField, reqStr, reqStrList, optFieldStr,
      optFieldStrList, optFieldObj, boolFieldD, asStr, asStrList_map_str,
      ImageToTextTask.allowedTypes, NoCaptchaTaskProxyless.allowedTypes,
      RecaptchaV2EnterpriseTaskProxyless.allowedTypes, RecaptchaV3TaskProxyless.allowedTypes,
      RecaptchaV3EnterpriseTask.allowedTypes, HCaptchaTaskProxyless.allowedTypes,
      HCaptchaClassification.allowedTypes, ReCaptchaV2Classification.allowedTypes,
      FunCaptchaClassification.allowedTypes, TurnstileTaskProxyless.allowedTypes,
      CloudFlareTask.allowedTypes]

/-- Witness for C6 at a concrete Turnstile task. -/
theorem task_model_dump_shape_roundtrip_witness :
    Task.model_validate
        (Task.model_dump (.turnstile ⟨"TurnstileTaskProxyless", "https://example.com", "0x4AAAAAAAB"⟩)) =
      some (.turnstile ⟨"TurnstileTaskProxyless", "https://example.com", "0x4AAAAAAAB"⟩) :=
  (task_model_dump_shape_roundtrip
    (.turnstile ⟨"TurnstileTaskProxyless", "https://example.com", "0x4AAAAAAAB"⟩)
    (by decide)).2.2.2.2

/-! ## C7: required-field validation and the empty `queries` list -/

/-- A required `str` field that is missing fails to parse. -/
theorem reqStr_none {o : List (String × JsonValue)} {k : String}
    (h : o.lookup k = none) : reqStr o k = none := by
  simp [reqStr, h]

/-- A required `list[str]` field that is missing fails to parse. -/
theorem reqStrList_none {o : List (String × JsonValue)} {k : String}
    (h : o.lookup k = none) : reqStrList o k = none := by
  simp [reqStrList, h]

/-- Binding a failing continuation yields a failure. -/
theorem bind_none_const {α β : Type} (x : Option α) :
    (x.bind fun _ => (none : Option β)) = none := by
  cases x <;> rfl

/-- Counterexample to C7.  Validating an `HCaptchaClassification` payload
whose `queries` list is present but empty SUCCEEDS: the source declares
`queries: list[str] = Field(...)` with no non-emptiness constraint, so the
empty list passes structural validation instead of failing it. -/
theorem hcaptcha_classification_empty_queries_accepted :
    Task.model_validate
        (.obj [("type", .str "HCaptchaClassification"), ("queries", .arr [])]) =
      some (.hcaptchaClassification ⟨"HCaptchaClassification", [], none, none⟩) := rfl

/-- C7 as amended.  An empty `queries` list is accepted by validation (first
conjunct — the non-emptiness the spec asks for is not enforced anywhere in the
source), while a genuinely missing required field does fail validation: each
remaining conjunct removes one required field of one variant. -/
theorem task_validation_missing_required_fields :
    (Task.model_validate
        (.obj [("type", .str "HCaptchaClassification"), ("queries", .arr [])]) =
      some (.hcaptchaClassification ⟨"HCaptchaClassification", [], none, none⟩)) ∧
    (∀ o : List (String × JsonValue), o.lookup "body" = none →
      ImageToTextTask.model_validate (.obj o) = none) ∧
    (∀ o : List (String × JsonValue), o.lookup "websiteURL" = none →
      NoCaptchaTaskProxyless.model_validate (.obj o) = none) ∧
    (∀ o : List (String × JsonValue), o.lookup "websiteKey" = none →
      NoCaptchaTaskProxyless.model_validate (.obj o) = none) ∧
    (∀ o : List (String × JsonValue), o.lookup "websiteURL" = none →
      RecaptchaV2EnterpriseTaskProxyless.model_validate (.obj o) = none) ∧
    (∀ o : List (String × JsonValue), o.lookup "websiteKey" = none →
      RecaptchaV2EnterpriseTaskProxyless.model_validate (.obj o) = none) ∧
    (∀ o : List (String × JsonValue), o.lookup "websiteURL" = none →
      RecaptchaV3TaskProxyless.model_validate (.obj o) = none) ∧
    (∀ o : List (String × JsonValue), o.lookup "websiteKey" = none →
      RecaptchaV3TaskProxyless.model_validate (.obj o) = none) ∧
    (∀ o : List (String × JsonValue), o.lookup "pageAction" = none →
      RecaptchaV3TaskProxyless.model_validate (.obj o) = none) ∧
    (∀ o : List (String × JsonValue), o.lookup "websiteURL" = none →
      RecaptchaV3EnterpriseTask.model_validate (.obj o) = none) ∧
    (∀ o : List (String × JsonValue), o.lookup "websiteKey" = none →
      RecaptchaV3EnterpriseTask.model_validate (.obj o) = none) ∧
    (∀ o : List (String × JsonValue), o.lookup "pageAction" = none →
      RecaptchaV3EnterpriseTask.model_validate (.obj o) = none) ∧
    (∀ o : List (String × JsonValue), o.lookup "websiteURL" = none →
      HCaptchaTaskProxyless.model_validate (.obj o) = none) ∧
    (∀ o : List (String × JsonValue), o.lookup "websiteKey" = none →
      HCaptchaTaskProxyless.model_validate (.obj o) = none) ∧
    (∀ o : List (String × JsonValue), o.lookup "queries" = none →
      HCaptchaClassification.model_validate (.obj o) = none) ∧
    (∀ o : List (String × JsonValue), o.lookup "image" = none →
      ReCaptchaV2Classification.model_validate (.obj o) = none) ∧
    (∀ o : List (String × JsonValue), o.lookup "question" = none →
      ReCaptchaV2Classification.model_validate (.obj o) = none) ∧
    (∀ o : List (String × JsonValue), o.lookup "images" = none →
      FunCaptchaClassification.model_validate (.obj o) = none) ∧
    (∀ o : List (String × JsonValue), o.lookup "question" = none →
      FunCaptchaClassification.model_validate (.obj o) = none) ∧
    (∀ o : List (String × JsonValue), o.lookup "websiteURL" = none →
      TurnstileTaskProxyless.model_validate (.obj o) = none) ∧
    (∀ o : List (String × JsonValue), o.lookup "websiteKey" = none →
      TurnstileTaskProxyless.model_validate (.obj o) = none) ∧
    (∀ o : List (String × JsonValue), o.lookup "websiteURL" = none →
      CloudFlareTask.model_validate (.obj o) = none) ∧
    (∀ o : List (String × JsonValue), o.lookup "proxy" = none →
      CloudFlareTask.model_validate (.obj o) = none) := by
  refine ⟨rfl, ?_, ?_, ?_, ?_, ?_, ?_, ?_, ?_, ?_, ?_, ?_, ?_, ?_, ?_, ?_, ?_, ?_, ?_, ?_, ?_, ?_, ?_⟩
  · intro o h
    simp [ImageToTextTask.model_validate, reqStr_none h, bind_none_const]
  · intro o h
    simp [NoCaptchaTaskProxyless.model_validate, reqStr_none h, bind_none_const]
  · intro o h
    simp [NoCaptchaTaskProxyless.model_validate, reqStr_none h, bind_none_const]
  · intro o h
    simp [RecaptchaV2EnterpriseTaskProxyless.model_validate, reqStr_none h, bind_none_const]
  · intro o h
    simp [RecaptchaV2EnterpriseTaskProxyless.model_validate, reqStr_none h, bind_none_const]
  · intro o h
    simp [RecaptchaV3TaskProxyless.model_validate, reqStr_none h, bind_none_const]
  · intro o h
    simp [RecaptchaV3TaskProxyless.model_validate, reqStr_none h, bind_none_const]
  · intro o h
    simp [RecaptchaV3TaskProxyless.model_validate, reqStr_none h, bind_none_const]
  · intro o h
    simp [RecaptchaV3EnterpriseTask.model_validate, reqStr_none h, bind_none_const]
  · intro o h
    simp [RecaptchaV3EnterpriseTask.model_validate, reqStr_none h, bind_none_const]
  · intro o h
    simp [RecaptchaV3EnterpriseTask.model_validate, reqStr_none h, bind_none_const]
  · intro o h
    simp [HCaptchaTaskProxyless.model_validate, reqStr_none h, bind_none_const]
  · intro o h
    simp [HCaptchaTaskProxyless.model_validate, reqStr_none h, bind_none_const]
  · intro o h
    simp [HCaptchaClassification.model_validate, reqStrList_none h, bind_none_const]
  · intro o h
    simp [ReCaptchaV2Classification.model_validate, reqStr_none h, bind_none_const]
  · intro o h
    simp [ReCaptchaV2Classification.model_validate, reqStr_none h, bind_none_const]
  · intro o h
    simp [FunCaptchaClassification.model_validate, reqStrList_none h, bind_none_const]
  · intro o h
    simp [FunCaptchaClassification.model_validate, reqStr_none h, bind_none_const]
  · intro o h
    simp [TurnstileTaskProxyless.model_validate, reqStr_none h, bind_none_const]
  · intro o h
    simp [TurnstileTaskProxyless.model_validate, reqStr_none h, bind_none_const]
  · intro o h
    simp [CloudFlareTask.model_validate, reqStr_none h, bind_none_const]
  · intro o h
    simp [CloudFlareTask.model_validate, reqStr_none h, bind_none_const]

/-- Witness for C7's amended statement: validating with no `queries` key (and
generally an empty payload) fails. -/
theorem task_validation_missing_required_fields_witness :
    HCaptchaClassification.model_validate (.obj []) = none :=
  task_validation_missing_required_fields.2.2.2.2.2.2.2.2.2.2.2.2.2.2.1 [] rfl

/-! ## C8: the discriminator invariant -/

/-- A discriminator produced by `typeField` lies in the allowed set, provided
the declared default does. -/
theorem typeField_mem {o : List (String × JsonValue)} {allowed : List String}
    {dflt s : String} (hd : dflt ∈ allowed) (h : typeField o allowed dflt = some s) :
    s ∈ allowed := by
  rcases hl : o.lookup "type" with _ | j
  · simp only [typeField, hl, Option.some.injEq] at h
    exact h ▸ hd
  · cases j with
    | str ts =>
        simp only [typeField, hl] at h
        by_cases hs : ts ∈ allowed
        · rw [if_pos hs] at h
          exact (Option.some.inj h) ▸ hs
        · rw [if_neg hs] at h
          exact absurd h (by simp)
    | num n => simp [typeField, hl] at h
    | bool b => simp [typeField, hl] at h
    | nul => simp [typeField, hl] at h
    | arr xs => simp [typeField, hl] at h
    | obj entries => simp [typeField, hl] at h

/-- A present discriminator outside the allowed set fails `typeField`. -/
theorem typeField_none (dflt : String) {o : List (String × JsonValue)}
    {allowed : List String} {s : String}
    (h : o.lookup "type" = some (.str s)) (hs : s ∉ allowed) :
    typeField o allowed dflt = none := by
  simp [typeField, h, hs]

/-- A successfully validated `ImageToTextTask` has its discriminator in the
variant's `Literal` set. -/
theorem validate_type_mem_imageToText {j : JsonValue} {x : ImageToTextTask}
    (h : ImageToTextTask.model_validate j = some x) : x.type ∈ ImageToTextTask.allowedTypes := by
  cases j
  case obj o =>
    simp only [ImageToTextTask.model_validate, Option.bind_eq_some, Option.some.injEq] at h
    obtain ⟨ty, hty, body, hbody, pn, hpn, hx⟩ := h
    subst hx
    exact typeField_mem (by decide) hty
  all_goals simp [ImageToTextTask.model_validate] at h

/-- A successfully validated `NoCaptchaTaskProxyless` has its discriminator in the
variant's `Literal` set. -/
theorem validate_type_mem_noCaptcha {j : JsonValue} {x : NoCaptchaTaskProxyless}
    (h : NoCaptchaTaskProxyless.model_validate j = some x) : x.type ∈ NoCaptchaTaskProxyless.allowedTypes := by
  cases j
  case obj o =>
    simp only [NoCaptchaTaskProxyless.model_validate, Option.bind_eq_some, Option.some.injEq] at h
    obtain ⟨ty, hty, url, hurl, key, hkey, inv, hinv, hx⟩ := h
    subst hx
    exact typeField_mem (by decide) hty
  all_goals simp [NoCaptchaTaskProxyless.model_validate] at h

/-- A successfully validated `RecaptchaV2EnterpriseTaskProxyless` has its discriminator in the
variant's `Literal` set. -/
theorem validate_type_mem_recaptchaV2Enterprise {j : JsonValue} {x : RecaptchaV2EnterpriseTaskProxyless}
    (h : RecaptchaV2EnterpriseTaskProxyless.model_validate j = some x) : x.type ∈ RecaptchaV2EnterpriseTaskProxyless.allowedTypes := by
  cases j
  case obj o =>
    simp only [RecaptchaV2EnterpriseTaskProxyless.model_validate, Option.bind_eq_some, Option.some.injEq] at h
    obtain ⟨ty, hty, url, hurl, key, hkey, ep, hep, hx⟩ := h
    subst hx
    exact typeField_mem (by decide) hty
  all_goals simp [RecaptchaV2EnterpriseTaskProxyless.model_validate] at h

/-- A successfully validated `RecaptchaV3TaskProxyless` has its discriminator in the
variant's `Literal` set. -/
theorem validate_type_mem_recaptchaV3 {j : JsonValue} {x : RecaptchaV3TaskProxyless}
    (h : RecaptchaV3TaskProxyless.model_validate j = some x) : x.type ∈ RecaptchaV3TaskProxyless.allowedTypes := by
  cases j
  case obj o =>
    simp only [RecaptchaV3TaskProxyless.model_validate, Option.bind_eq_some, Option.some.injEq] at h
    obtain ⟨ty, hty, url, hurl, key, hkey, ac, hac, hx⟩ := h
    subst hx
    exact typeField_mem (by decide) hty
  all_goals simp [RecaptchaV3TaskProxyless.model_validate] at h

/-- A successfully validated `RecaptchaV3EnterpriseTask` has its discriminator in the
variant's `Literal` set. -/
theorem validate_type_mem_recaptchaV3Enterprise {j : JsonValue} {x : RecaptchaV3EnterpriseTask}
    (h : RecaptchaV3EnterpriseTask.model_validate j = some x) : x.type ∈ RecaptchaV3EnterpriseTask.allowedTypes := by
  cases j
  case obj o =>
    simp only [RecaptchaV3EnterpriseTask.model_validate, Option.bind_eq_some, Option.some.injEq] at h
    obtain ⟨ty, hty, url, hurl, key, hkey, ac, hac, ep, hep, hx⟩ := h
    subst hx
    exact typeField_mem (by decide) hty
  all_goals simp [RecaptchaV3EnterpriseTask.model_validate] at h

/-- A successfully validated `HCaptchaTaskProxyless` has its discriminator in the
variant's `Literal` set. -/
theorem validate_type_mem_hcaptcha {j : JsonValue} {x : HCaptchaTaskProxyless}
    (h : HCaptchaTaskProxyless.model_validate j = some x) : x.type ∈ HCaptchaTaskProxyless.allowedTypes := by
  cases j
  case obj o =>
    simp only [HCaptchaTaskProxyless.model_validate, Option.bind_eq_some, Option.some.injEq] at h
    obtain ⟨ty, hty, url, hurl, key, hkey, hx⟩ := h
    subst hx
    exact typeField_mem (by decide) hty
  all_goals simp [HCaptchaTaskProxyless.model_validate] at h

/-- A successfully validated `HCaptchaClassification` has its discriminator in the
variant's `Literal` set. -/
theorem validate_type_mem_hcaptchaClassification {j : JsonValue} {x : HCaptchaClassification}
    (h : HCaptchaClassification.model_validate j = some x) : x.type ∈ HCaptchaClassification.allowedTypes := by
  cases j
  case obj o =>
    simp only [HCaptchaClassification.model_validate, Option.bind_eq_some, Option.some.injEq] at h
    obtain ⟨ty, hty, qs, hqs, qn, hqn, an, han, hx⟩ := h
    subst hx
    exact typeField_mem (by decide) hty
  all_goals simp [HCaptchaClassification.model_validate] at h

/-- A successfully validated `ReCaptchaV2Classification` has its discriminator in the
variant's `Literal` set. -/
theorem validate_type_mem_recaptchaV2Classification {j : JsonValue} {x : ReCaptchaV2Classification}
    (h : ReCaptchaV2Classification.model_validate j = some x) : x.type ∈ ReCaptchaV2Classification.allowedTypes := by
  cases j
  case obj o =>
    simp only [ReCaptchaV2Classification.model_validate, Option.bind_eq_some, Option.some.injEq] at h
    obtain ⟨ty, hty, im, him, qn, hqn, hx⟩ := h
    subst hx
    exact typeField_mem (by decide) hty
  all_goals simp [ReCaptchaV2Classification.model_validate] at h

/-- A successfully validated `FunCaptchaClassification` has its discriminator in the
variant's `Literal` set. -/
theorem validate_type_mem_funCaptchaClassification {j : JsonValue} {x : FunCaptchaClassification}
    (h : FunCaptchaClassification.model_validate j = some x) : x.type ∈ FunCaptchaClassification.allowedTypes := by
  cases j
  case obj o =>
    simp only [FunCaptchaClassification.model_validate, Option.bind_eq_some, Option.some.injEq] at h
    obtain ⟨ty, hty, im, him, qn, hqn, hx⟩ := h
    subst hx
    exact typeField_mem (by decide) hty
  all_goals simp [FunCaptchaClassification.model_validate] at h

/-- A successfully validated `TurnstileTaskProxyless` has its discriminator in the
variant's `Literal` set. -/
theorem validate_type_mem_turnstile {j : JsonValue} {x : TurnstileTaskProxyless}
    (h : TurnstileTaskProxyless.model_validate j = some x) : x.type ∈ TurnstileTaskProxyless.allowedTypes := by
  cases j
  case obj o =>
    simp only [TurnstileTaskProxyless.model_validate, Option.bind_eq_some, Option.some.injEq] at h
    obtain ⟨ty, hty, url, hurl, key, hkey, hx⟩ := h
    subst hx
    exact typeField_mem (by decide) hty
  all_goals simp [TurnstileTaskProxyless.model_validate] at h

/-- A successfully validated `CloudFlareTask` has its discriminator in the
variant's `Literal` set. -/
theorem validate_type_mem_cloudFlare {j : JsonValue} {x : CloudFlareTask}
    (h : CloudFlareTask.model_validate j = some x) : x.type ∈ CloudFlareTask.allowedTypes := by
  cases j
  case obj o =>
    simp only [CloudFlareTask.model_validate, Option.bind_eq_some, Option.some.injEq] at h
    obtain ⟨ty, hty, url, hurl, px, hpx, ua, hua, wl, hwl, rc, hrc, bi, hbi, pd, hpd, hx⟩ := h
    subst hx
    exact typeField_mem (by decide) hty
  all_goals simp [CloudFlareTask.model_validate] at h

/-- C8.  (1) Any value accepted by `Task` validation has a discriminator in
its own variant's fixed enumerated string set; (2) an input object whose
`type` is a string outside the union of all the variants' sets fails `Task`
validation rather than passing through. -/
theorem task_discriminator_invariant :
    (∀ (j : JsonValue) (t : Task), Task.model_validate j = some t →
      t.typeStr ∈ t.allowedTypes) ∧
    (∀ (o : List (String × JsonValue)) (s : String),
      o.lookup "type" = some (.str s) → s ∉ allTaskTypes →
      Task.model_validate (.obj o) = none) := by
  constructor
  · intro j t hval
    simp only [Task.model_validate, Option.orElse_eq_some, Option.map_eq_some'] at hval
    rcases hval with ⟨x, hx, rfl⟩ | ⟨-, hval⟩
    · exact validate_type_mem_imageToText hx
    rcases hval with ⟨x, hx, rfl⟩ | ⟨-, hval⟩
    · exact validate_type_mem_noCaptcha hx
    rcases hval with ⟨x, hx, rfl⟩ | ⟨-, hval⟩
    · exact validate_type_mem_recaptchaV2Enterprise hx
    rcases hval with ⟨x, hx, rfl⟩ | ⟨-, hval⟩
    · exact validate_type_mem_recaptchaV3 hx
    rcases hval with ⟨x, hx, rfl⟩ | ⟨-, hval⟩
    · exact validate_type_mem_recaptchaV3Enterprise hx
    rcases hval with ⟨x, hx, rfl⟩ | ⟨-, hval⟩
    · exact validate_type_mem_hcaptcha hx
    rcases hval with ⟨x, hx, rfl⟩ | ⟨-, hval⟩
    · exact validate_type_mem_hcaptchaClassification hx
    rcases hval with ⟨x, hx, rfl⟩ | ⟨-, hval⟩
    · exact validate_type_mem_recaptchaV2Classification hx
    rcases hval with ⟨x, hx, rfl⟩ | ⟨-, hval⟩
    · exact validate_type_mem_funCaptchaClassification hx
    rcases hval with ⟨x, hx, rfl⟩ | ⟨-, hval⟩
    · exact validate_type_mem_turnstile hx
    obtain ⟨x, hx, rfl⟩ := hval
    exact validate_type_mem_cloudFlare hx
  · intro o s h hs
    simp only [allTaskTypes, List.mem_append, not_or, ImageToTextTask.allowedTypes,
      NoCaptchaTaskProxyless.allowedTypes, RecaptchaV2EnterpriseTaskProxyless.allowedTypes,
      RecaptchaV3TaskProxyless.allowedTypes, RecaptchaV3EnterpriseTask.allowedTypes,
      HCaptchaTaskProxyless.allowedTypes, HCaptchaClassification.allowedTypes,
      ReCaptchaV2Classification.allowedTypes, FunCaptchaClassification.allowedTypes,
      TurnstileTaskProxyless.allowedTypes, CloudFlareTask.allowedTypes] at hs
    obtain ⟨⟨⟨⟨⟨⟨⟨⟨⟨⟨h1, h2⟩, h3⟩, h4⟩, h5⟩, h6⟩, h7⟩, h8⟩, h9⟩, h10⟩, h11⟩ := hs
    simp [Task.model_validate, ImageToTextTask.model_validate,
      NoCaptchaTaskProxyless.model_validate, RecaptchaV2EnterpriseTaskProxyless.model_validate,
      RecaptchaV3TaskProxyless.model_validate, RecaptchaV3EnterpriseTask.model_validate,
      HCaptchaTaskProxyless.model_validate, HCaptchaClassification.model_validate,
      ReCaptchaV2Classification.model_validate, FunCaptchaClassification.model_validate,
      TurnstileTaskProxyless.model_validate, CloudFlareTask.model_validate,
      typeField_none "ImageToTextTaskMuggle" h h1,
      typeField_none "NoCaptchaTaskProxyless" h h2,
      typeField_none "RecaptchaV2EnterpriseTaskProxyless" h h3,
      typeField_none "RecaptchaV3TaskProxyless" h h4,
      typeField_none "RecaptchaV3EnterpriseTask" h h5,
      typeField_none "HCaptchaTaskProxyless" h h6,
      typeField_none "HCaptchaClassification" h h7,
      typeField_none "ReCaptchaV2Classification" h h8,
      typeField_none "FunCaptchaClassification" h h9,
      typeField_none "TurnstileTaskProxyless" h h10,
      typeField_none "CloudFlareTaskS3" h h11,
      ImageToTextTask.allowedTypes, NoCaptchaTaskProxyless.allowedTypes,
      RecaptchaV2EnterpriseTaskProxyless.allowedTypes, RecaptchaV3TaskProxyless.allowedTypes,
      RecaptchaV3EnterpriseTask.allowedTypes, HCaptchaTaskProxyless.allowedTypes,
      HCaptchaClassification.allowedTypes, ReCaptchaV2Classification.allowedTypes,
      FunCaptchaClassification.allowedTypes, TurnstileTaskProxyless.allowedTypes,
      CloudFlareTask.allowedTypes]

/-- Witness for C8: an object with an unknown discriminator fails validation. -/
theorem task_discriminator_invariant_witness :
    Task.model_validate (.obj [("type", .str "UnknownTaskType")]) = none :=
  task_discriminator_invariant.2 [("type", .str "UnknownTaskType")] "UnknownTaskType"
    rfl (by decide)

/-! ## Behaviour of the poll loop -/

/-- One loop iteration that sees no API error and no ready result sleeps once
and continues with `elapsed` increased by `poll_interval`. -/
theorem solveLoop_step_continue (poll : ℕ → TaskResultResponse) (task_id : String)
    (interval timeout : ℚ) {fuel n : ℕ} {elapsed : ℚ}
    (ht : elapsed < timeout)
    (herr : raise_for_error (poll n).errorId (poll n).errorCode (poll n).errorDescription = none)
    (hnready : ¬((poll n).status = some "ready" ∧ (poll n).solution.isSome)) :
    solveLoop poll task_id interval timeout (fuel + 1) n elapsed
      = solveLoop poll task_id interval timeout fuel (n + 1) (elapsed + interval) := by
  rcases hsol : (poll n).solution with _ | s
  · cases hst : (poll n).status == some "ready" <;>
      simp [solveLoop, if_pos ht, herr, hst, hsol]
  · have hst : ((poll n).status == some "ready") = false := by
      cases hb : (poll n).status == some "ready"
      · rfl
      · exact absurd ⟨eq_of_beq hb, by simp [hsol]⟩ hnready
    simp [solveLoop, if_pos ht, herr, hst, hsol]

/-- An iteration that sees a ready result with a solution present returns it
at once: exactly one more poll and no further suspension. -/
theorem solveLoop_ready_step (poll : ℕ → TaskResultResponse) (task_id : String)
    (interval timeout : ℚ) {fuel n : ℕ} {elapsed : ℚ} {sol : Solution}
    (hfuel : 0 < fuel) (ht : elapsed < timeout)
    (herr : raise_for_error (poll n).errorId (poll n).errorCode (poll n).errorDescription = none)
    (hst : (poll n).status = some "ready") (hsol : (poll n).solution = some sol) :
    solveLoop poll task_id interval timeout fuel n elapsed = ⟨.ok sol, n + 1, n⟩ := by
  obtain ⟨fuel, rfl⟩ : ∃ f, fuel = f + 1 := ⟨fuel - 1, by omega⟩
  simp [solveLoop, if_pos ht, herr, hst, hsol]

/-- If the first `k` polled replies carry no error and no ready result, and
the `k`-th reply is ready with a solution, the loop returns that solution
after exactly `k + 1` polls and `k` suspensions (none after the ready
reply), provided the fuel and the timeout allow reaching it. -/
theorem solveLoop_ready_after (poll : ℕ → TaskResultResponse) (task_id : String)
    (interval timeout : ℚ) (sol : Solution) :
    ∀ (k fuel n : ℕ) (elapsed : ℚ),
      (∀ m, m < k →
        raise_for_error (poll (n + m)).errorId (poll (n + m)).errorCode
            (poll (n + m)).errorDescription = none
          ∧ ¬((poll (n + m)).status = some "ready" ∧ (poll (n + m)).solution.isSome)) →
      raise_for_error (poll (n + k)).errorId (poll (n + k)).errorCode
          (poll (n + k)).errorDescription = none →
      (poll (n + k)).status = some "ready" →
      (poll (n + k)).solution = some sol →
      k < fuel →
      (∀ m : ℕ, m ≤ k → elapsed + m * interval < timeout) →
      solveLoop poll task_id interval timeout fuel n elapsed = ⟨.ok sol, n + k + 1, n + k⟩ := by
  intro k
  induction k with
  | zero =>
      intro fuel n elapsed hpre herr hst hsol hfuel htime
      have ht : elapsed < timeout := by simpa using htime 0 (by omega)
      simpa using solveLoop_ready_step poll task_id interval timeout hfuel ht
        (by simpa using herr) (by simpa using hst) (by simpa using hsol)
  | succ k ih =>
      intro fuel n elapsed hpre herr hst hsol hfuel htime
      obtain ⟨fuel, rfl⟩ : ∃ f, fuel = f + 1 := ⟨fuel - 1, by omega⟩
      have ht : elapsed < timeout := by simpa using htime 0 (by omega)
      have h0 := hpre 0 (by omega)
      rw [solveLoop_step_continue poll task_id interval timeout ht
        (by simpa using h0.1) (by simpa using h0.2)]
      have hpre' : ∀ m, m < k →
          raise_for_error (poll (n + 1 + m)).errorId (poll (n + 1 + m)).errorCode
              (poll (n + 1 + m)).errorDescription = none
            ∧ ¬((poll (n + 1 + m)).status = some "ready" ∧ (poll (n + 1 + m)).solution.isSome) := by
        intro m hm
        rw [(by omega : n + 1 + m = n + (m + 1))]
        exact hpre (m + 1) (by omega)
      have heq : n + 1 + k = n + (k + 1) := by omega
      have htime' : ∀ m : ℕ, m ≤ k → (elapsed + interval) + m * interval < timeout := by
        intro m hm
        have := htime (m + 1) (by omega)
        push_cast at this ⊢
        linarith
      have := ih fuel (n + 1) (elapsed + interval)
        hpre' (by rw [heq]; exact herr) (by rw [heq]; exact hst) (by rw [heq]; exact hsol)
        (by omega) htime'
      rw [this]
      simp only [SolveTrace.mk.injEq]
      exact ⟨trivial, by omega, by omega⟩

/-- If no polled reply ever carries an error or a ready result, the loop adds
`interval` to `elapsed` after each poll and, as soon as `elapsed < timeout`
fails, raises the task-timeout error.  `j` is the number of polls (equal to
the number of suspensions); it is the least count whose accumulated elapsed
time reaches the timeout. -/
theorem solveLoop_timeout_lemma (poll : ℕ → TaskResultResponse) (task_id : String)
    (interval timeout : ℚ)
    (hnr : ∀ m, raise_for_error (poll m).errorId (poll m).errorCode
        (poll m).errorDescription = none
      ∧ ¬((poll m).status = some "ready" ∧ (poll m).solution.isSome)) :
    ∀ (fuel n : ℕ) (elapsed : ℚ), timeout ≤ elapsed + fuel * interval →
      ∃ j : ℕ, solveLoop poll task_id interval timeout fuel n elapsed
          = ⟨.err (taskTimeoutError task_id timeout), n + j, n + j⟩
        ∧ (∀ m : ℕ, m < j → elapsed + m * interval < timeout)
        ∧ timeout ≤ elapsed + j * interval := by
  intro fuel
  induction fuel with
  | zero =>
      intro n elapsed hb
      have ht : ¬(elapsed < timeout) := by push_cast at hb; simp; linarith
      refine ⟨0, by simp [solveLoop, ht], fun m hm => absurd hm (by omega), ?_⟩
      push_cast at hb ⊢
      linarith
  | succ fuel ih =>
      intro n elapsed hb
      by_cases ht : elapsed < timeout
      · have h0 := hnr n
        rw [solveLoop_step_continue poll task_id interval timeout ht h0.1 h0.2]
        have hb' : timeout ≤ (elapsed + interval) + fuel * interval := by
          push_cast at hb ⊢
          linarith
        obtain ⟨j, hj, hmin, hge⟩ := ih (n + 1) (elapsed + interval) hb'
        refine ⟨j + 1, ?_, ?_, ?_⟩
        · rw [hj]
          simp only [SolveTrace.mk.injEq]
          exact ⟨trivial, by omega, by omega⟩
        · intro m hm
          cases m with
          | zero => simpa using ht
          | succ m =>
              have := hmin m (by omega)
              push_cast at this ⊢
              linarith
        · push_cast at hge ⊢
          linarith
      · refine ⟨0, by simp [solveLoop, ht], fun m hm => absurd hm (by omega), ?_⟩
        push_cast
        have := not_lt.mp ht
        linarith

/-! ## C3: return-on-ready and the three-processing-polls scenario -/

/-- A `getTaskResult` reply `{errorId: 0, status: "processing"}`. -/
def processingResponse : TaskResultResponse :=
  { errorId := 0, status := some "processing" }

/-- The solution `{token: "solved-token-xyz"}` of the C3 scenario. -/
def c3Solution : Solution := { token := some "solved-token-xyz" }

/-- A reply `{errorId: 0, status: "ready", solution: {token: "solved-token-xyz"}}`. -/
def readyResponse : TaskResultResponse :=
  { errorId := 0, status := some "ready", solution := some c3Solution }

/-- The C3 server: `processing` for the first three polls, then `ready`. -/
def c3Server : String → ℕ → TaskResultResponse := fun _ n =>
  if n < 3 then processingResponse else readyResponse

/-- A successful `createTask` reply `{errorId: 0, taskId: "abc123-task-id"}`. -/
def createOkResponse : CreateTaskResponse :=
  { errorId := 0, taskId := some "abc123-task-id" }

/-- The C3 scenario run: poll interval 0.1 s, timeout 5 s. -/
def c3Trace : SolveTrace := solve 120 createOkResponse c3Server 100 (1/10) (some 5)

/-- Evaluating the C3 scenario: the solution arrives with the fourth poll
(after the three `processing` polls), with three suspensions and none after
the ready reply. -/
theorem c3Trace_eq : c3Trace = ⟨.ok c3Solution, 4, 3⟩ := by
  have hred : c3Trace
      = solveLoop (c3Server "abc123-task-id") "abc123-task-id" (1/10) 5 100 0 0 := by
    simp [c3Trace, solve, createOkResponse, raise_for_error]
  rw [hred]
  have h := solveLoop_ready_after (c3Server "abc123-task-id") "abc123-task-id"
    (1/10) 5 c3Solution 3 100 0 0
    (by
      intro m hm
      simp [c3Server, hm, processingResponse, raise_for_error])
    (by simp [c3Server, readyResponse, raise_for_error])
    (by simp [c3Server, readyResponse])
    (by simp [c3Server, readyResponse])
    (by omega)
    (by
      intro m hm
      interval_cases m <;> norm_num)
  simpa using h

/-- Counterexample to C3 as stated.  In the scenario (three `processing`
replies, then a ready reply, interval 0.1 s, timeout 5 s) `solve` does return
the solution with token `"solved-token-xyz"`, but it performs 4
`get_task_result` polls — the 3 processing polls plus the poll that sees the
ready result — not 3 as the claim counts. -/
theorem c3_polls_is_four_not_three :
    c3Trace.outcome = .ok c3Solution ∧ c3Trace.polls = 4 ∧ ¬(c3Trace.polls = 3) := by
  rw [c3Trace_eq]
  exact ⟨rfl, rfl, by decide⟩

/-- C3 as amended.  First conjunct: whenever a poll returns a reply with
status `"ready"` and a solution present (and no API error), the loop returns
that solution immediately — one final poll, no further polling, and no
suspension after the ready reply.  Second conjunct: the concrete scenario
returns the `"solved-token-xyz"` solution after exactly 4 polls (3
`processing` + 1 `ready`) and exactly 3 suspensions. -/
theorem solve_returns_immediately_on_ready :
    (∀ (poll : ℕ → TaskResultResponse) (task_id : String) (interval timeout : ℚ)
        (fuel n : ℕ) (elapsed : ℚ) (sol : Solution),
        0 < fuel → elapsed < timeout →
        raise_for_error (poll n).errorId (poll n).errorCode (poll n).errorDescription = none →
        (poll n).status = some "ready" → (poll n).solution = some sol →
        solveLoop poll task_id interval timeout fuel n elapsed = ⟨.ok sol, n + 1, n⟩) ∧
    c3Trace = ⟨.ok c3Solution, 4, 3⟩ :=
  ⟨fun poll task_id interval timeout fuel n elapsed sol hfuel ht herr hst hsol =>
      solveLoop_ready_step poll task_id interval timeout hfuel ht herr hst hsol,
   c3Trace_eq⟩

/-- Witness for C3's amended statement: a ready reply on the very first poll
is returned with one poll and no suspension. -/
theorem solve_returns_immediately_on_ready_witness :
    solveLoop (fun _ => readyResponse) "abc123-task-id" 1 5 1 0 0
      = ⟨.ok c3Solution, 1, 0⟩ :=
  solve_returns_immediately_on_ready.1 (fun _ => readyResponse) "abc123-task-id"
    1 5 1 0 0 c3Solution (by decide) (by decide) rfl rfl rfl

/-! ## C4: additive elapsed-time accounting and the timeout scenario -/

/-- A server whose every reply is `{errorId: 0, status: "processing"}`. -/
def alwaysProcessingServer : String → ℕ → TaskResultResponse := fun _ _ =>
  processingResponse

/-- The C4 scenario run: poll interval 0.1 s, timeout 0.3 s, never ready. -/
def c4Trace : SolveTrace :=
  solve 120 createOkResponse alwaysProcessingServer 100 (1/10) (some (3/10))

/-- C4.  First conjunct: when the task was created successfully (non-empty
id) and no poll ever returns an error or a ready result, `solve` raises the
task-timeout error, and the number `j` of polls (equal to the number of
suspensions) is characterized additively — every earlier iteration had
`m * interval < timeout` (the loop repeats while the accumulated elapsed time
is below the timeout) and `j * interval ≥ timeout` (the loop stops at the
first accumulated elapsed time reaching it); the error carries the task id
and the configured timeout.  Second conjunct: the raised error's description
is exactly the timeout message around the task id and the rendered timeout.
Third conjunct: in the 0.1 s / 0.3 s scenario this happens after exactly 3
polls and 3 suspensions. -/
theorem solve_timeout_additive :
    (∀ (client_timeout : ℚ) (createResp : CreateTaskResponse)
        (server : String → ℕ → TaskResultResponse) (fuel : ℕ)
        (interval : ℚ) (tmo : Option ℚ) (tid : String),
        createResp.errorId = 0 → createResp.taskId = some tid → tid ≠ "" →
        (∀ m, raise_for_error (server tid m).errorId (server tid m).errorCode
            (server tid m).errorDescription = none
          ∧ ¬((server tid m).status = some "ready" ∧ (server tid m).solution.isSome)) →
        tmo.getD client_timeout ≤ (fuel : ℚ) * interval →
        ∃ j : ℕ, solve client_timeout createResp server fuel interval tmo
            = ⟨.err (taskTimeoutError tid (tmo.getD client_timeout)), j, j⟩
          ∧ (∀ m : ℕ, m < j → (m : ℚ) * interval < tmo.getD client_timeout)
          ∧ tmo.getD client_timeout ≤ (j : ℚ) * interval) ∧
    ((taskTimeoutError "abc123-task-id" (3/10)).error_description
      = some ("任务 " ++ "abc123-task-id" ++ " 在 " ++ toString ((3 : ℚ)/10) ++ " 秒后超时")) ∧
    c4Trace = ⟨.err (taskTimeoutError "abc123-task-id" (3/10)), 3, 3⟩ := by
  refine ⟨?_, rfl, ?_⟩
  · intro client_timeout createResp server fuel interval tmo tid hc0 htid hne hnr hb
    have hred : solve client_timeout createResp server fuel interval tmo
        = solveLoop (server tid) tid interval (tmo.getD client_timeout) fuel 0 0 := by
      simp [solve, raise_for_error, hc0, htid, hne]
    rw [hred]
    obtain ⟨j, hj, hmin, hge⟩ := solveLoop_timeout_lemma (server tid) tid interval
      (tmo.getD client_timeout) hnr fuel 0 0 (by push_cast; linarith)
    refine ⟨j, by simpa using hj, ?_, ?_⟩
    · intro m hm
      have := hmin m hm
      push_cast at this ⊢
      linarith
    · push_cast at hge ⊢
      linarith
  · have hred : c4Trace = solveLoop (alwaysProcessingServer "abc123-task-id")
        "abc123-task-id" (1/10) (3/10) 100 0 0 := by
      simp [c4Trace, solve, createOkResponse, raise_for_error]
    obtain ⟨j, hj, hmin, hge⟩ := solveLoop_timeout_lemma
      (alwaysProcessingServer "abc123-task-id") "abc123-task-id" (1/10) (3/10)
      (fun m => by simp [alwaysProcessingServer, processingResponse, raise_for_error])
      100 0 0 (by norm_num)
    have hj3 : j = 3 := by
      rcases lt_trichotomy j 3 with h | h | h
      · exfalso
        interval_cases j <;> norm_num at hge
      · exact h
      · exfalso
        have := hmin 3 h
        norm_num at this
    rw [hred]
    rw [hj3] at hj
    simpa using hj

/-- Helper bound for the C4 witness, at interval 1 s and timeout 3 s. -/
theorem c4_witness_bound : (some (3 : ℚ)).getD 120 ≤ ((4 : ℕ) : ℚ) * 1 := by
  norm_num

/-- Witness for C4's universally quantified conjunct at concrete inputs. -/
theorem solve_timeout_additive_witness :
    ∃ j : ℕ, solve 120 createOkResponse alwaysProcessingServer 4 1 (some 3)
        = ⟨.err (taskTimeoutError "abc123-task-id" ((some (3 : ℚ)).getD 120)), j, j⟩
      ∧ (∀ m : ℕ, m < j → (m : ℚ) * 1 < (some (3 : ℚ)).getD 120)
      ∧ (some (3 : ℚ)).getD 120 ≤ (j : ℚ) * 1 :=
  solve_timeout_additive.1 120 createOkResponse alwaysProcessingServer 4 1 (some 3)
    "abc123-task-id" rfl rfl (by decide)
    (fun m => ⟨rfl, by simp [alwaysProcessingServer, processingResponse]⟩)
    c4_witness_bound

/-! ## C5: handling of the `createTask` task id -/

/-- A `createTask` reply that reports success but carries an empty `taskId`. -/
def emptyTaskIdResponse : CreateTaskResponse := { errorId := 0, taskId := some "" }

/-- Counterexample to C5 as stated.  With `{errorId: 0, taskId: ""}` the task
identifier is present in the reply, yet `solve` performs no poll at all and
raises the `ERROR_NO_TASK_ID` error instead of polling with that identifier:
the source's `if not task_id` treats the empty string like an absent id. -/
theorem solve_empty_taskid_raises :
    solve 120 emptyTaskIdResponse alwaysProcessingServer 100 1 (some 5)
      = ⟨.err noTaskIdError, 0, 0⟩ := rfl

/-- C5 as amended.  After a successful `createTask` reply: an absent `taskId`
raises `ERROR_NO_TASK_ID` with no polling (first conjunct); an empty-string
`taskId` does exactly the same (second conjunct — the code's falsiness test
`if not task_id` treats it as absent); and with a non-empty identifier
`solve` runs the poll loop against exactly that identifier, i.e. it consumes
the reply stream `server tid` (third conjunct). -/
theorem solve_taskid_handling :
    (∀ (client_timeout : ℚ) (createResp : CreateTaskResponse)
        (server : String → ℕ → TaskResultResponse) (fuel : ℕ)
        (interval : ℚ) (tmo : Option ℚ),
        createResp.errorId = 0 → createResp.taskId = none →
        solve client_timeout createResp server fuel interval tmo
          = ⟨.err noTaskIdError, 0, 0⟩) ∧
    (∀ (client_timeout : ℚ) (createResp : CreateTaskResponse)
        (server : String → ℕ → TaskResultResponse) (fuel : ℕ)
        (interval : ℚ) (tmo : Option ℚ),
        createResp.errorId = 0 → createResp.taskId = some "" →
        solve client_timeout createResp server fuel interval tmo
          = ⟨.err noTaskIdError, 0, 0⟩) ∧
    (∀ (client_timeout : ℚ) (createResp : CreateTaskResponse)
        (server : String → ℕ → TaskResultResponse) (fuel : ℕ)
        (interval : ℚ) (tmo : Option ℚ) (tid : String),
        createResp.errorId = 0 → createResp.taskId = some tid → tid ≠ "" →
        solve client_timeout createResp server fuel interval tmo
          = solveLoop (server tid) tid interval (tmo.getD client_timeout) fuel 0 0) := by
  refine ⟨?_, ?_, ?_⟩
  · intro client_timeout createResp server fuel interval tmo hc0 htid
    simp [solve, raise_for_error, hc0, htid]
  · intro client_timeout createResp server fuel interval tmo hc0 htid
    simp [solve, raise_for_error, hc0, htid]
  · intro client_timeout createResp server fuel interval tmo tid hc0 htid hne
    simp [solve, raise_for_error, hc0, htid, hne]

/-- Witness for C5's amended statement: an absent `taskId` raises the
no-task-id error without polling. -/
theorem solve_taskid_handling_witness :
    solve 120 { errorId := 0 } alwaysProcessingServer 5 1 none
      = ⟨.err noTaskIdError, 0, 0⟩ :=
  solve_taskid_handling.1 120 { errorId := 0 } alwaysProcessingServer 5 1 none rfl rfl

/-! ## C10: a non-positive effective timeout polls zero times -/

/-- C10.  If the effective timeout (the per-call `timeout`, or the client's
configured timeout when the per-call one is `None`) is ≤ 0 and `createTask`
succeeded with a usable identifier, the loop body never runs: `solve` raises
the task-timeout error after zero `get_task_result` polls and zero
suspensions. -/
theorem solve_nonpositive_timeout_no_poll
    (client_timeout : ℚ) (createResp : CreateTaskResponse)
    (server : String → ℕ → TaskResultResponse) (fuel : ℕ)
    (interval : ℚ) (tmo : Option ℚ) (tid : String)
    (hc0 : createResp.errorId = 0) (htid : createResp.taskId = some tid)
    (hne : tid ≠ "") (hle : tmo.getD client_timeout ≤ 0) :
    solve client_timeout createResp server fuel interval tmo
      = ⟨.err (taskTimeoutError tid (tmo.getD client_timeout)), 0, 0⟩ := by
  have ht : ¬((0 : ℚ) < tmo.getD client_timeout) := not_lt.mpr hle
  cases fuel <;> simp [solve, solveLoop, raise_for_error, hc0, htid, hne, ht]

/-- Witness for C10 with an explicit 0-second timeout. -/
theorem solve_nonpositive_timeout_no_poll_witness :
    solve 120 createOkResponse alwaysProcessingServer 7 1 (some 0)
      = ⟨.err (taskTimeoutError "abc123-task-id" ((some (0 : ℚ)).getD 120)), 0, 0⟩ :=
  solve_nonpositive_timeout_no_poll 120 createOkResponse alwaysProcessingServer 7 1
    (some 0) "abc123-task-id" rfl rfl (by decide) (by simp)

end Yescaptcha
